import Mathlib

/-!
Verification of the `lol_assistant` kill-calculator core.

This file gives a shallow embedding of `src/modules/kill_calculator.py`
and the reference tables in `src/data/champion_stats.py`,
`src/data/item_stats.py` and `src/data/champion_combos.py`.

Python floats are modelled by `ℚ`, Python ints by `Int`, Python dicts of
reference data by association lists, missing-key defaults by `Option`.
Code that can raise (list indexing) returns `Option`.
`round(x, d)` (round half to even) is modelled exactly on `ℚ`.
-/

set_option maxHeartbeats 1000000
set_option maxRecDepth 10000
set_option linter.unusedVariables false

/-! ## Python-arithmetic helpers -/

/-- Python `round` to an integer: round half to even. -/
def roundHalfEven (x : ℚ) : Int :=
  if x - (⌊x⌋ : ℚ) < 1/2 then ⌊x⌋
  else if 1/2 < x - (⌊x⌋ : ℚ) then ⌊x⌋ + 1
  else if ⌊x⌋ % 2 = 0 then ⌊x⌋ else ⌊x⌋ + 1

/-- Python `round(x, d)` for `d` decimal digits. -/
def pyRound (x : ℚ) (d : Nat) : ℚ :=
  (roundHalfEven (x * (10 : ℚ) ^ d) : ℚ) / (10 : ℚ) ^ d

/-- Python `int()` applied to a float: truncation toward zero. -/
def int_trunc (q : ℚ) : Int := if 0 ≤ q then ⌊q⌋ else -⌊-q⌋

/-- Python `f"{q:.0%}"` formatting used in the low-HP pause reason. -/
def _format_pct (q : ℚ) : String := toString (roundHalfEven (q * 100)) ++ "%"

/-! ## Name normalization (string munging from the source) -/

/-- `str.lower()` on the character list of a string. -/
def lowerData (s : String) : List Char := s.data.map Char.toLower

/-- Champion-key normalization used by `get_champion_stats` and `get_combo`:
lowercase, drop apostrophes (39), spaces (32) and periods (46). -/
def _normalize_champ_key (s : String) : String :=
  String.mk ((lowerData s).filter (fun c => !(c.toNat == 39 || c.toNat == 32 || c.toNat == 46)))

/-- Item-key normalization from `kill_calculator._normalize_item_key` and
`item_stats.get_item_stats`: lowercase, drop apostrophes, map spaces and
hyphens (45) to underscores (95). -/
def _normalize_item_key (s : String) : String :=
  String.mk (((lowerData s).filter (fun c => c.toNat != 39)).map
    (fun c => if c.toNat == 32 || c.toNat == 45 then Char.ofNat 95 else c))

/-- Normalization in `item_stats.get_active_damage`: lowercase, drop
apostrophes, map spaces to underscores (no hyphen replacement). -/
def _normalize_active_key (s : String) : String :=
  String.mk (((lowerData s).filter (fun c => c.toNat != 39)).map
    (fun c => if c.toNat == 32 then Char.ofNat 95 else c))

/-! ## `src/data/champion_stats.py` -/

structure ChampBase where
  base_armor : ℚ
  armor_per_level : ℚ
  base_mr : ℚ
  mr_per_level : ℚ
  base_hp : ℚ
  hp_per_level : ℚ
deriving DecidableEq

/-- The `_default` entry of `CHAMPION_STATS`. -/
def _default_champ : ChampBase := ⟨28, 4.0, 32, 1.5, 580, 95⟩

def CHAMPION_STATS : List (String × ChampBase) := [
  ("belveth",      ⟨21, 4.7, 32, 2.05, 640, 105⟩),
  ("khazix",       ⟨21, 4.2, 32, 2.05, 585, 100⟩),
  ("jarvaniv",     ⟨36, 4.6, 32, 2.05, 592, 100⟩),
  ("vi",           ⟨33, 4.7, 32, 2.05, 613, 95⟩),
  ("nocturne",     ⟨33, 4.2, 32, 2.05, 582, 85⟩),
  ("warwick",      ⟨33, 4.7, 32, 2.05, 653, 99⟩),
  ("masteryi",     ⟨33, 3.5, 32, 1.25, 654, 99⟩),
  ("ekko",         ⟨24, 4.2, 32, 2.05, 655, 109⟩),
  ("elise",        ⟨24, 4.0, 32, 1.25, 553, 92⟩),
  ("briar",        ⟨26, 4.7, 32, 2.05, 645, 114⟩),
  ("graves",       ⟨30, 4.0, 32, 2.05, 570, 95⟩),
  ("xinzhao",      ⟨33, 4.2, 32, 2.05, 600, 100⟩),
  ("reksai",       ⟨36, 4.7, 32, 2.05, 575, 85⟩),
  ("fiddlesticks", ⟨21, 4.0, 40, 2.05, 580, 102⟩),
  ("shaco",        ⟨21, 3.5, 32, 1.25, 560, 90⟩),
  ("viego",        ⟨33, 4.7, 32, 2.05, 600, 100⟩),
  ("hecarim",      ⟨31, 4.7, 32, 2.05, 593, 93⟩),
  ("darius",       ⟨39, 4.0, 32, 2.05, 650, 114⟩),
  ("kayle",        ⟨26, 4.0, 32, 1.25, 610, 103⟩),
  ("veigar",       ⟨18, 4.0, 30, 0.5, 550, 104⟩),
  ("lucian",       ⟨28, 4.7, 30, 0.5, 600, 95⟩),
  ("nautilus",     ⟨46, 4.7, 32, 2.05, 648, 109⟩),
  ("malzahar",     ⟨19, 4.0, 30, 0.5, 580, 95⟩),
  ("aphelios",     ⟨21, 4.2, 30, 0.5, 530, 92⟩),
  ("_default",     _default_champ)]

/-- `get_champion_stats`: normalized lookup falling back to `_default`. -/
def get_champion_stats (champion_name : String) : ChampBase :=
  (List.lookup (_normalize_champ_key champion_name) CHAMPION_STATS).getD _default_champ

structure ChampAtLevel where
  armor : ℚ
  mr : ℚ
  max_hp : ℚ
deriving DecidableEq

/-- `calculate_stats_at_level`: linear level scaling with level clamped to [1, 18]. -/
def calculate_stats_at_level (champion_name : String) (level : Int) : ChampAtLevel :=
  let stats := get_champion_stats champion_name
  let lvl := max 1 (min 18 level)
  ⟨stats.base_armor + stats.armor_per_level * ((lvl : ℚ) - 1),
   stats.base_mr + stats.mr_per_level * ((lvl : ℚ) - 1),
   stats.base_hp + stats.hp_per_level * ((lvl : ℚ) - 1)⟩

/-! ## `src/data/item_stats.py` -/

/-- A `passive_shield` value is either a number (flat shield or max-HP
fraction) or a qualitative string marker such as `"spell"`; the Python
`isinstance(v, (int, float))` test is modelled by the `Sum` constructor. -/
abbrev ShieldVal := ℚ ⊕ String

structure ItemEntry where
  armor : ℚ := 0
  mr : ℚ := 0
  hp : ℚ := 0
  passive_shield : Option ShieldVal := none
  active_shield : Option ℚ := none
  revive : Bool := false
  damage_delay : Option ℚ := none
deriving DecidableEq

def ITEM_STATS : List (String × ItemEntry) := [
  ("thornmail",            { armor := 60, hp := 350 }),
  ("randuins_omen",        { armor := 80, hp := 400 }),
  ("frozen_heart",         { armor := 90, hp := 0 }),
  ("iceborn_gauntlet",     { armor := 50, hp := 300 }),
  ("jak_sho",              { armor := 30, hp := 300, mr := 30 }),
  ("kaenic_rookern",       { mr := 80, hp := 350 }),
  ("spirit_visage",        { mr := 60, hp := 450 }),
  ("force_of_nature",      { mr := 70, hp := 350 }),
  ("warmogs_armor",        { hp := 1000 }),
  ("heartsteel",           { hp := 800, armor := 0 }),
  ("gargoyle_stoneplate",  { armor := 60, mr := 60, hp := 150, active_shield := some 0.40 }),
  ("sterak_gage",          { hp := 400, passive_shield := some (Sum.inl 0.20) }),
  ("immortal_shieldbow",   { hp := 250, passive_shield := some (Sum.inl 275) }),
  ("guardian_angel",       { armor := 40, revive := true }),
  ("deaths_dance",         { armor := 45, hp := 0, damage_delay := some 0.30 }),
  ("black_cleaver",        { hp := 400, armor := 0 }),
  ("sundered_sky",         { hp := 350, armor := 0 }),
  ("titanic_hydra",        { hp := 600, armor := 0 }),
  ("maw_of_malmortius",    { mr := 50, passive_shield := some (Sum.inl 200) }),
  ("edge_of_night",        { hp := 250, armor := 0, passive_shield := some (Sum.inr "spell") }),
  ("hollow_radiance",      { hp := 350, mr := 50 }),
  ("abyssal_mask",         { hp := 500, mr := 0 }),
  ("blade_of_the_ruined_king", { hp := 0 }),
  ("trinity_force",        { hp := 200 }),
  ("stridebreaker",        { hp := 300 }),
  ("ravenous_hydra",       { hp := 0 }),
  ("profane_hydra",        { hp := 0 }),
  ("serpents_fang",        { hp := 0 }),
  ("lord_dominiks_regards", { hp := 0 }),
  ("mortal_reminder",      { hp := 0 }),
  ("the_collector",        { hp := 0 }),
  ("infinity_edge",        { hp := 0 }),
  ("kraken_slayer",        { hp := 0 })]

/-- `ITEM_STATS.get(key, {})` for an already-normalized key. -/
def item_stats_get (key : String) : ItemEntry :=
  (List.lookup key ITEM_STATS).getD {}

/-- `get_item_stats`: normalize the item name, then look up with `{}` fallback. -/
def get_item_stats (item_name : String) : ItemEntry :=
  (List.lookup (_normalize_item_key item_name) ITEM_STATS).getD {}

structure ActiveItem where
  damage : ℚ := 0
  dtype : String := ""
deriving DecidableEq

def ACTIVE_DAMAGE_ITEMS : List (String × ActiveItem) := [
  ("galeforce",          ⟨150, "physical"⟩),
  ("hextech_rocketbelt", ⟨125, "magic"⟩),
  ("youmuus_ghostblade", ⟨0, "none"⟩),
  ("the_collector",      ⟨0, "execute"⟩)]

/-- `get_active_damage`: normalized lookup with empty-dict fallback. -/
def get_active_damage (item_name : String) : ActiveItem :=
  (List.lookup (_normalize_active_key item_name) ACTIVE_DAMAGE_ITEMS).getD {}

structure SummonerAdj where
  hp_modifier : Option ℚ := none
  my_dmg_modifier : Option ℚ := none
  label : String := ""
deriving DecidableEq

def SUMMONER_ADJUSTMENTS : List (String × SummonerAdj) := [
  ("SummonerBarrier", { hp_modifier := some 1.25, label := "Barrier" }),
  ("SummonerHeal",    { hp_modifier := some 1.18, label := "Heal" }),
  ("SummonerShield",  { hp_modifier := some 1.15, label := "Ignite(no adj)" }),
  ("SummonerExhaust", { my_dmg_modifier := some 0.60, label := "Exhaust" })]

/-! ## `src/data/champion_combos.py` -/

structure DamageComponent where
  label : String
  base : List ℚ
  ad_r : ℚ := 0
  ap_r : ℚ := 0
  hp_r : ℚ := 0
  dtype : String
  rank_index : Option String
deriving DecidableEq

structure ComboDef where
  combo_label : String
  spell_order : String
  damage_components : List DamageComponent
deriving DecidableEq

/-- The `_default` entry of `CHAMPION_COMBOS`. -/
def _default_combo : ComboDef :=
  ⟨"Full combo", "Spell1 > Spell2 > AA",
   [{ label := "Estimated combo", base := [300], ad_r := 2.5,
      dtype := "physical", rank_index := none }]⟩

def CHAMPION_COMBOS : List (String × ComboDef) := [
  ("khazix",
   ⟨"E → Q (isolated) → W → AA", "E > Q > W > AA",
    [{ label := "Q isolated", base := [70, 95, 120, 145, 170], ad_r := 1.15,
       dtype := "physical", rank_index := some "q" },
     { label := "W spike", base := [85, 115, 145, 175, 205], ad_r := 1.0,
       dtype := "physical", rank_index := some "w" },
     { label := "E leap", base := [65, 100, 135, 170, 205], ad_r := 0.2,
       dtype := "physical", rank_index := some "e" },
     { label := "AA", base := [0], ad_r := 1.0,
       dtype := "physical", rank_index := none }]⟩),
  ("jarvaniv",
   ⟨"E+Q → W → AA → R", "E+Q > W > AA > R (to trap)",
    [{ label := "Q knockup", base := [80, 130, 180, 230, 280], ad_r := 1.4,
       dtype := "physical", rank_index := some "q" },
     { label := "R Cataclysm", base := [150, 250, 350], ad_r := 1.5,
       dtype := "physical", rank_index := some "r" },
     { label := "AA", base := [0], ad_r := 1.0,
       dtype := "physical", rank_index := none }]⟩),
  ("briar",
   ⟨"Q → W (frenzy) → E → W recast", "Q > W > E (charged) > W recast",
    [{ label := "Q stun", base := [60, 85, 110, 135, 160], ad_r := 0.8,
       dtype := "physical", rank_index := some "q" },
     { label := "W autos x3", base := [0], ad_r := 3.0,
       dtype := "physical", rank_index := none },
     { label := "E max charge", base := [140, 215, 290, 365, 440], ad_r := 2.4,
       dtype := "magic", rank_index := some "e" }]⟩),
  ("warwick",
   ⟨"Q → R (suppress) → autos", "R > Q > autos",
    [{ label := "Q bite", base := [0], ad_r := 0, hp_r := 0.06,
       dtype := "magic", rank_index := some "q" },
     { label := "R suppress", base := [175, 350, 525], ad_r := 2.5,
       dtype := "magic", rank_index := some "r" },
     { label := "autos x3", base := [0], ad_r := 3.0,
       dtype := "physical", rank_index := none }]⟩),
  ("nocturne",
   ⟨"R → AA → Q → E (fear) → AA", "R > AA > Q > E > AA",
    [{ label := "Q", base := [65, 110, 155, 200, 245], ad_r := 0.85,
       dtype := "physical", rank_index := some "q" },
     { label := "Passive proc", base := [0], ad_r := 1.2,
       dtype := "physical", rank_index := none },
     { label := "AAs x2", base := [0], ad_r := 2.0,
       dtype := "physical", rank_index := none }]⟩),
  ("masteryi",
   ⟨"Q (4 strikes) → autos → E (true dmg)", "Q > E > autos",
    [{ label := "Q Alpha x4", base := [25, 60, 95, 130, 165], ad_r := 4 * 0.9,
       dtype := "physical", rank_index := some "q" },
     { label := "E true dmg x3", base := [0], ad_r := 3 * 0.1,
       dtype := "true", rank_index := none },
     { label := "AAs x3", base := [0], ad_r := 3.0,
       dtype := "physical", rank_index := none }]⟩),
  ("vi",
   ⟨"Q → AA → W procs → R → AA", "Q > AA > R > AA",
    [{ label := "Q max charge", base := [55, 80, 105, 130, 155], ad_r := 1.7,
       dtype := "physical", rank_index := some "q" },
     { label := "R", base := [150, 325, 500], ad_r := 1.4,
       dtype := "physical", rank_index := some "r" },
     { label := "AAs+W x2", base := [0], ad_r := 2.0,
       dtype := "physical", rank_index := none }]⟩),
  ("_default", _default_combo)]

/-- `get_combo`: normalized lookup falling back to `_default`. -/
def get_combo (champion_name : String) : ComboDef :=
  (List.lookup (_normalize_champ_key champion_name) CHAMPION_COMBOS).getD _default_combo

/-- Python list indexing `l[i]`: negative indices count from the end,
out-of-range raises (`none`). -/
def pyIndex (l : List ℚ) (i : Int) : Option ℚ :=
  if 0 ≤ i then l.get? i.toNat
  else
    let j := (l.length : Int) + i
    if 0 ≤ j then l.get? j.toNat else none

/-- `spell_ranks.get(k, 1)`. -/
def ranks_get (ranks : List (String × Int)) (k : String) : Int :=
  (List.lookup k ranks).getD 1

/-- `get_base_damage_at_rank`: components without a rank source use the first
table entry (`0` for an empty table); otherwise index by
`min(rank - 1, len(base) - 1)` with Python list semantics. -/
def get_base_damage_at_rank (component : DamageComponent) (spell_ranks : List (String × Int)) :
    Option ℚ :=
  match component.rank_index with
  | none => some (if component.base.isEmpty then 0 else component.base.headD 0)
  | some idx_key =>
      let rank := ranks_get spell_ranks idx_key
      let rank_idx := min (rank - 1) ((component.base.length : Int) - 1)
      pyIndex component.base rank_idx

/-! ## `src/modules/kill_calculator.py` — data model -/

def THRESHOLD_GO : ℚ := 0.80
def THRESHOLD_RISKY : ℚ := 0.60
def MIN_MY_HP_TO_ENGAGE : ℚ := 0.35

/-- Attacker snapshot (`my_state` dict from the live client). -/
structure MyState where
  champion : String := "_default"
  level : Int := 1
  total_ad : ℚ := 50
  ap : ℚ := 0
  lethality : ℚ := 0
  armor_pen_pct : ℚ := 0
  magic_pen_flat : ℚ := 0
  items : List String := []
  spell_ranks : List (String × Int) := [("q", 1), ("w", 1), ("e", 1), ("r", 1)]
  hp_percent : ℚ := 1
deriving DecidableEq

/-- Target snapshot (`enemy` dict). `hp_max_real = none` models a missing
key; `some 0` is falsy in Python, so the override only fires on `some v`
with `v ≠ 0`. -/
structure Enemy where
  champion : String := "_default"
  level : Int := 1
  items : List String := []
  hp_max_real : Option ℚ := none
  hp_percent : ℚ := 1
  is_dead : Bool := false
  summoners : List String := []
deriving DecidableEq

structure KillCalcResult where
  enemy_champion : String
  my_champion : String
  raw_damage : ℚ := 0
  real_damage : ℚ := 0
  active_item_damage : ℚ := 0
  enemy_current_hp : ℚ := 0
  enemy_max_hp : ℚ := 0
  enemy_hp_percent : ℚ := 1
  enemy_effective_hp : ℚ := 0
  enemy_armor_used : ℚ := 0
  enemy_mr_used : ℚ := 0
  kill_ratio_val : ℚ := 0
  confidence : ℚ := 0
  verdict : String := "NO GO"
  combo_label : String := ""
  spell_order : String := ""
  flags : List String := []
  summoner_warnings : List String := []
  item_flags : List String := []
  paused : Bool := false
  pause_reason : String := ""
deriving DecidableEq

/-! ## Utility functions of the calculator -/

/-- `_calc_effective_armor`: percent pen, then level-scaled lethality,
floored at zero. -/
def _calc_effective_armor (base_armor : ℚ) (my_state : MyState) : ℚ :=
  let flat_pen := my_state.lethality * (0.6 + 0.4 * (my_state.level : ℚ) / 18)
  let armor_after_pct := base_armor * (1 - my_state.armor_pen_pct)
  max 0 (armor_after_pct - flat_pen)

/-- `_dmg_reduction`: armor → damage multiplier. -/
def _dmg_reduction (effective_armor : ℚ) : ℚ :=
  if 0 ≤ effective_armor then 100 / (100 + effective_armor)
  else 2 - 100 / (100 - effective_armor)

/-- `_mr_reduction`. -/
def _mr_reduction (effective_mr : ℚ) : ℚ :=
  100 / (100 + max 0 effective_mr)

/-! ## `_build_enemy_stats` -/

/-- Accumulator of the item loop in `_build_enemy_stats`:
(armor, mr, max_hp, item_shields, item_revive, death_dance_flag). -/
structure ItemAcc where
  armor : ℚ
  mr : ℚ
  max_hp : ℚ
  item_shields : List (String × ShieldVal)
  item_revive : Bool
  death_dance_flag : Bool
deriving DecidableEq

/-- Python truthiness of a shield value (`0` and `""` are falsy). -/
def shieldTruthy : ShieldVal → Bool
  | Sum.inl q => q != 0
  | Sum.inr s => s != ""

/-- One iteration of the item loop in `_build_enemy_stats`. -/
def _item_step (acc : ItemAcc) (item_name : String) : ItemAcc :=
  let key := _normalize_item_key item_name
  let stats := item_stats_get key
  let shields₁ := match stats.passive_shield with
    | some v => if shieldTruthy v then acc.item_shields ++ [(item_name, v)] else acc.item_shields
    | none => acc.item_shields
  let shields₂ := match stats.active_shield with
    | some f =>
        if f != 0 then
          shields₁ ++ [(item_name,
            (Sum.inr ("+" ++ toString (int_trunc (f * 100)) ++ "% maxHP") : ShieldVal))]
        else shields₁
    | none => shields₁
  { armor := acc.armor + stats.armor
    mr := acc.mr + stats.mr
    max_hp := acc.max_hp + stats.hp
    item_shields := shields₂
    item_revive := acc.item_revive || stats.revive
    death_dance_flag := acc.death_dance_flag || (key == "deaths_dance") }

structure EnemyStats where
  armor : ℚ
  mr : ℚ
  max_hp : ℚ
  current_hp : ℚ
  hp_percent : ℚ
  item_shields : List (String × ShieldVal)
  item_revive : Bool
  death_dance_flag : Bool
deriving DecidableEq

/-- `_build_enemy_stats`: base stats at level, the `hp_max_real` override
(applied, as in the source, before the item loop), item deltas, and the
clamped HP fraction. -/
def _build_enemy_stats (enemy : Enemy) (hp_percent_override : Option ℚ) : EnemyStats :=
  let base := calculate_stats_at_level enemy.champion enemy.level
  let max_hp₀ := match enemy.hp_max_real with
    | some v => if v = 0 then base.max_hp else v
    | none => base.max_hp
  let acc := enemy.items.foldl _item_step
    ⟨base.armor, base.mr, max_hp₀, [], false, false⟩
  let hp_pct₀ := match hp_percent_override with
    | some v => v
    | none => enemy.hp_percent
  let hp_pct := if hp_pct₀ ≤ 0 ∨ 1 < hp_pct₀ then 1 else hp_pct₀
  { armor := acc.armor
    mr := acc.mr
    max_hp := acc.max_hp
    current_hp := acc.max_hp * hp_pct
    hp_percent := hp_pct
    item_shields := acc.item_shields
    item_revive := acc.item_revive
    death_dance_flag := acc.death_dance_flag }

/-! ## `_calculate_combo_damage` -/

/-- One iteration of the component loop; accumulator is
(phys_dmg, magic_dmg, breakdown). -/
def _combo_step (total_ad ap max_hp_enemy : ℚ)
    (spell_ranks : List (String × Int))
    (acc : ℚ × ℚ × List (String × ℚ × String)) (comp : DamageComponent) :
    Option (ℚ × ℚ × List (String × ℚ × String)) :=
  match get_base_damage_at_rank comp spell_ranks with
  | none => none
  | some base =>
      let raw := base + total_ad * comp.ad_r + ap * comp.ap_r + max_hp_enemy * comp.hp_r
      let bd := acc.2.2 ++ [(comp.label, pyRound raw 1, comp.dtype)]
      if comp.dtype = "physical" ∨ comp.dtype = "true" then
        some (acc.1 + raw, acc.2.1, bd)
      else
        some (acc.1, acc.2.1 + raw, bd)

/-- The component loop: threads the accumulator through `_combo_step`,
propagating a raised lookup (`none`). -/
def _combo_fold (total_ad ap max_hp_enemy : ℚ) (spell_ranks : List (String × Int)) :
    List DamageComponent → ℚ × ℚ × List (String × ℚ × String) →
      Option (ℚ × ℚ × List (String × ℚ × String))
  | [], acc => some acc
  | c :: t, acc =>
      match _combo_step total_ad ap max_hp_enemy spell_ranks acc c with
      | none => none
      | some acc₁ => _combo_fold total_ad ap max_hp_enemy spell_ranks t acc₁

/-- `_calculate_combo_damage`: returns (physical, magic, breakdown), or
`none` when a base-damage lookup raises. -/
def _calculate_combo_damage (my_state : MyState) (enemy_stats : EnemyStats)
    (spell_ranks : List (String × Int)) : Option (ℚ × ℚ × List (String × ℚ × String)) :=
  _combo_fold my_state.total_ad my_state.ap enemy_stats.max_hp spell_ranks
    (get_combo my_state.champion).damage_components
    ((0 : ℚ), (0 : ℚ), ([] : List (String × ℚ × String)))

/-! ## Stages of `calculate_kill_chance` -/

/-- Active-damage item loop: returns (active_dmg, active_items_used). -/
def _active_step (eff_armor : ℚ) (acc : ℚ × List String) (item_name : String) :
    ℚ × List String :=
  let act := get_active_damage item_name
  if 0 < act.damage then
    let d := if act.dtype = "physical" then act.damage * _dmg_reduction eff_armor
             else act.damage
    (acc.1 + d, acc.2 ++ [item_name ++ " (+" ++ toString (roundHalfEven d) ++ ")"])
  else acc

def _active_item_damage (my_state : MyState) (eff_armor : ℚ) : ℚ × List String :=
  my_state.items.foldl (_active_step eff_armor) ((0 : ℚ), ([] : List String))

/-- Item-shield loop: starting from the current HP, add numeric shield
values, record string shields as flags, 0.08 penalty per shield; returns
(effective_hp, confidence_penalty, item_flags). -/
def _shield_step (acc : ℚ × ℚ × List String) (p : String × ShieldVal) :
    ℚ × ℚ × List String :=
  match p.2 with
  | Sum.inl v =>
      (acc.1 + v, acc.2.1 + 0.08,
       acc.2.2 ++ ["⚠ " ++ p.1 ++ ": +" ++ toString (roundHalfEven v) ++ " shield"])
  | Sum.inr s =>
      (acc.1, acc.2.1 + 0.08,
       acc.2.2 ++ ["⚠ " ++ p.1 ++ ": " ++ s ++ " shield"])

def _shield_fold (shields : List (String × ShieldVal)) (ehp₀ : ℚ) :
    ℚ × ℚ × List String :=
  shields.foldl _shield_step (ehp₀, (0 : ℚ), ([] : List String))

/-- Shields, then the Death\x27s Dance ×1.15 step, then the revive penalty:
the item part of the effective-HP build-up.  The first component is the
effective HP recorded in `enemy_effective_hp` (before summoner spells). -/
def _ehp_item_stage (es : EnemyStats) : ℚ × ℚ × List String :=
  let s := _shield_fold es.item_shields es.current_hp
  let a := if es.death_dance_flag then
             (s.1 * 1.15, s.2.1 + 0.05, s.2.2 ++ ["⚠ Death\x27s Dance: 30% dmg delayed"])
           else s
  if es.item_revive then
    (a.1, a.2.1 + 0.20, a.2.2 ++ ["🔴 Guardian Angel: revive possible"])
  else a

/-- Summoner-spell loop; accumulator is
(effective_hp, dmg_modifier, confidence_penalty, summoner_warnings). -/
def _summoner_step (acc : ℚ × ℚ × ℚ × List String) (s : String) :
    ℚ × ℚ × ℚ × List String :=
  let adj := (List.lookup s SUMMONER_ADJUSTMENTS).getD {}
  let acc₁ := match adj.hp_modifier with
    | some m =>
        (acc.1 * m, acc.2.1, acc.2.2.1 + 0.08,
         acc.2.2.2 ++ ["⚠ " ++ adj.label ++ ": ×" ++ toString m ++ " effective HP"])
    | none => acc
  match adj.my_dmg_modifier with
  | some m =>
      (acc₁.1, acc₁.2.1 * m, acc₁.2.2.1 + 0.12,
       acc₁.2.2.2 ++ ["⚠ " ++ adj.label ++ ": your dmg ×" ++ toString m])
  | none => acc₁

def _summoner_stage (summoners : List String) (ehp₀ : ℚ) : ℚ × ℚ × ℚ × List String :=
  summoners.foldl _summoner_step (ehp₀, (1 : ℚ), (0 : ℚ), ([] : List String))

/-- The `ITEM_CD_FLAGS` table local to `calculate_kill_chance`. -/
def ITEM_CD_FLAGS : List (String × String) := [
  ("eclipse",            "Eclipse proc (6s CD) — unknown state"),
  ("immortal_shieldbow", "Shieldbow shield (90s CD) — unknown state"),
  ("steraks_gage",       "Sterak\x27s shield (60s CD) — unknown state"),
  ("gargoyle_stoneplate", "Gargoyle active (90s CD) — unknown state")]

/-- Unknown-cooldown-state item loop: 0.05 penalty and a flag per match. -/
def _cd_step (acc : ℚ × List String) (item_name : String) : ℚ × List String :=
  match List.lookup (_normalize_item_key item_name) ITEM_CD_FLAGS with
  | some msg => (acc.1 + 0.05, acc.2 ++ ["⚠ " ++ msg])
  | none => acc

def _cd_stage (items : List String) : ℚ × List String :=
  items.foldl _cd_step ((0 : ℚ), ([] : List String))

/-! ## `calculate_kill_chance` -/

/-- The freshly-constructed result before any computation
(dataclass defaults). -/
def initResult (enemy : Enemy) (my_state : MyState) : KillCalcResult :=
  { enemy_champion := enemy.champion, my_champion := my_state.champion }

/-- `my_hp_percent or my_state.get("hp_percent", 1.0)` — Python `or`
treats `None` and `0.0` as falsy. -/
def _my_hp (my_hp_percent : Option ℚ) (my_state : MyState) : ℚ :=
  match my_hp_percent with
  | some v => if v = 0 then my_state.hp_percent else v
  | none => my_state.hp_percent

/-- The result record built on the evaluated (non-paused) branch of
`calculate_kill_chance`, given the combo-damage triple `cd`. -/
def _evaluated_result (my_state : MyState) (enemy : Enemy)
    (enemy_hp_percent : Option ℚ) (allies_nearby : Int)
    (cd : ℚ × ℚ × List (String × ℚ × String)) : KillCalcResult :=
  let enemy_stats := _build_enemy_stats enemy enemy_hp_percent
  let phys_raw := cd.1
  let magic_raw := cd.2.1
  let eff_armor := _calc_effective_armor enemy_stats.armor my_state
  let eff_mr := max 0 (enemy_stats.mr - my_state.magic_pen_flat)
  let phys_dealt := phys_raw * _dmg_reduction eff_armor
  let magic_dealt := magic_raw * _mr_reduction eff_mr
  let act := _active_item_damage my_state eff_armor
  let total_dealt := phys_dealt + magic_dealt + act.1
  let ist := _ehp_item_stage enemy_stats
  let sst := _summoner_stage enemy.summoners ist.1
  let cds := _cd_stage enemy.items
  let confidence_penalty := ist.2.1 + sst.2.2.1 + cds.1
  let adjusted_dealt := total_dealt * sst.2.1
  let effective_hp := sst.1
  let kr := adjusted_dealt / max effective_hp 1
  let base_conf := min 0.97 kr
  let uncertainty := min 0.40 confidence_penalty
  let final_conf := max 0 (base_conf - uncertainty)
  let combo := get_combo my_state.champion
  { enemy_champion := enemy.champion
    my_champion := my_state.champion
    raw_damage := pyRound (phys_raw + magic_raw) 1
    real_damage := pyRound total_dealt 1
    active_item_damage := pyRound act.1 1
    enemy_current_hp := enemy_stats.current_hp
    enemy_max_hp := enemy_stats.max_hp
    enemy_hp_percent := enemy_stats.hp_percent
    enemy_effective_hp := pyRound ist.1 1
    enemy_armor_used := enemy_stats.armor
    enemy_mr_used := enemy_stats.mr
    kill_ratio_val := pyRound kr 3
    confidence := pyRound final_conf 3
    verdict := if THRESHOLD_GO ≤ final_conf then "GO"
               else if THRESHOLD_RISKY ≤ final_conf then "RISKY"
               else "NO GO"
    combo_label := combo.combo_label ++
      (if act.2 ≠ [] then " + " ++ String.intercalate ", " act.2 else "")
    spell_order := combo.spell_order
    flags := if allies_nearby = 0 then
               ["Solo engage — watch for Phase Rush / Flash escape"]
             else []
    summoner_warnings := sst.2.2.2
    item_flags := ist.2.2 ++ cds.2
    paused := false
    pause_reason := "" }

/-- Main entry point.  `none` models a raised exception (only possible in
the combo-damage table indexing); pause short-circuits return `some` of a
result whose only non-default fields are the champions, `paused` and
`pause_reason`. -/
def calculate_kill_chance (my_state : MyState) (enemy : Enemy)
    (enemy_hp_percent : Option ℚ) (my_hp_percent : Option ℚ)
    (allies_nearby : Int) (game_time : ℚ) : Option KillCalcResult :=
  let result₀ := initResult enemy my_state
  let my_hp := _my_hp my_hp_percent my_state
  if 0 < game_time ∧ game_time < 10 then
    some { result₀ with paused := true, pause_reason := "Pre-game (< 10s)" }
  else if my_hp < MIN_MY_HP_TO_ENGAGE then
    some { result₀ with
           paused := true
           pause_reason := "Your HP too low (" ++ _format_pct my_hp ++ ")" }
  else if enemy.is_dead then
    some { result₀ with paused := true, pause_reason := "Enemy is dead" }
  else if 45 * 60 < game_time then
    some { result₀ with
           paused := true
           pause_reason := "Late game (>45min) — calc unreliable" }
  else
    let enemy_stats := _build_enemy_stats enemy enemy_hp_percent
    match _calculate_combo_damage my_state enemy_stats my_state.spell_ranks with
    | none => none
    | some cd => some (_evaluated_result my_state enemy enemy_hp_percent allies_nearby cd)

/-! ## Observables of the evaluated branch (compositions of the stages,
used to state properties of `calculate_kill_chance`) -/

/-- Effective HP after the item stage, before summoner spells: the value
recorded in `enemy_effective_hp` (up to rounding). -/
def _effective_hp_pre_summoners (enemy : Enemy) (ov : Option ℚ) : ℚ :=
  (_ehp_item_stage (_build_enemy_stats enemy ov)).1

/-- One factor of the summoner HP-multiplier product. -/
def _summ_hp_step (m : ℚ) (s : String) : ℚ :=
  match ((List.lookup s SUMMONER_ADJUSTMENTS).getD {}).hp_modifier with
  | some q => m * q
  | none => m

/-- Product of the configured summoner HP multipliers over the held
summoner spells. -/
def _summoner_hp_product (ss : List String) : ℚ :=
  ss.foldl _summ_hp_step 1

/-- Effective HP used as the kill-ratio denominator (before the floor
at 1). -/
def _effective_hp_final (enemy : Enemy) (ov : Option ℚ) : ℚ :=
  (_summoner_stage enemy.summoners (_effective_hp_pre_summoners enemy ov)).1

/-- The damage value used as the kill-ratio numerator
(post-mitigation combo damage plus active items, times the summoner
damage modifier); `none` models the raised-exception path. -/
def _adjusted_dealt (ms : MyState) (enemy : Enemy) (ov : Option ℚ) : Option ℚ :=
  let es := _build_enemy_stats enemy ov
  match _calculate_combo_damage ms es ms.spell_ranks with
  | none => none
  | some cd =>
      let eff_armor := _calc_effective_armor es.armor ms
      let eff_mr := max 0 (es.mr - ms.magic_pen_flat)
      some ((cd.1 * _dmg_reduction eff_armor + cd.2.1 * _mr_reduction eff_mr +
             (_active_item_damage ms eff_armor).1) *
            (_summoner_stage enemy.summoners (_effective_hp_pre_summoners enemy ov)).2.1)

/-- The confidence penalty accumulated over the evaluated branch. -/
def _confidence_penalty (enemy : Enemy) (ov : Option ℚ) : ℚ :=
  (_ehp_item_stage (_build_enemy_stats enemy ov)).2.1 +
  (_summoner_stage enemy.summoners (_effective_hp_pre_summoners enemy ov)).2.2.1 +
  (_cd_stage enemy.items).1

/-- The penalty actually subtracted from the base confidence. -/
def _penalty_subtracted (enemy : Enemy) (ov : Option ℚ) : ℚ :=
  min 0.40 (_confidence_penalty enemy ov)

/-- The base confidence `min(0.97, kill_ratio)`. -/
def _base_confidence (ms : MyState) (enemy : Enemy) (ov : Option ℚ) : Option ℚ :=
  (_adjusted_dealt ms enemy ov).map
    (fun d => min 0.97 (d / max (_effective_hp_final enemy ov) 1))

/-- Number of item-shield penalty sources (each adds 0.08). -/
def _shield_source_count (enemy : Enemy) (ov : Option ℚ) : Nat :=
  (_build_enemy_stats enemy ov).item_shields.length

/-- Number of confidence-penalty sources that fire on the evaluated
branch: item shields, the Death\x27s Dance flag, the revive flag, matched
summoner-spell modifiers, and unknown-cooldown item flags. -/
def _penalty_source_count (enemy : Enemy) (ov : Option ℚ) : Nat :=
  let es := _build_enemy_stats enemy ov
  es.item_shields.length + (if es.death_dance_flag then 1 else 0) +
  (if es.item_revive then 1 else 0) +
  (enemy.summoners.foldl (fun n s =>
      let adj := (List.lookup s SUMMONER_ADJUSTMENTS).getD {}
      n + (if adj.hp_modifier.isSome then 1 else 0) +
        (if adj.my_dmg_modifier.isSome then 1 else 0)) 0) +
  (enemy.items.countP (fun i =>
      (List.lookup (_normalize_item_key i) ITEM_CD_FLAGS).isSome))

/-! ## Predicates and concrete instances used by the theorems -/

/-- Nonnegativity of an optional numeric field. -/
def opt_nonneg : Option ℚ → Prop
  | some q => 0 ≤ q
  | none => True

instance : (o : Option ℚ) → Decidable (opt_nonneg o)
  | none => isTrue trivial
  | some q => inferInstanceAs (Decidable (0 ≤ q))

/-- All numeric reference values of a champion entry are nonnegative. -/
abbrev ChampOk (c : ChampBase) : Prop :=
  0 ≤ c.base_armor ∧ 0 ≤ c.armor_per_level ∧ 0 ≤ c.base_mr ∧
  0 ≤ c.mr_per_level ∧ 0 ≤ c.base_hp ∧ 0 ≤ c.hp_per_level

/-- The HP delta of an item entry is nonnegative. -/
abbrev ItemHpOk (e : ItemEntry) : Prop := 0 ≤ e.hp

/-- All base damages and scaling coefficients of a component are nonnegative. -/
abbrev CompOk (c : DamageComponent) : Prop :=
  (∀ b ∈ c.base, (0 : ℚ) ≤ b) ∧ 0 ≤ c.ad_r ∧ 0 ≤ c.ap_r ∧ 0 ≤ c.hp_r

abbrev ComboOk (c : ComboDef) : Prop := ∀ comp ∈ c.damage_components, CompOk comp

/-- The summoner-adjustment multipliers are nonnegative. -/
abbrev SummOk (a : SummonerAdj) : Prop :=
  opt_nonneg a.hp_modifier ∧ opt_nonneg a.my_dmg_modifier

/-- The Kha\x27Zix Q component, used as a concrete instance. -/
def compQ : DamageComponent :=
  { label := "Q isolated", base := [70, 95, 120, 145, 170], ad_r := 1.15,
    dtype := "physical", rank_index := some "q" }

/-- Low-HP attacker used for the C3 witness. -/
def msLow : MyState := { hp_percent := 0.2 }

/-- Dead target used for the C3 witness. -/
def enDead : Enemy := { is_dead := true }

/-- Attacker with an unknown champion (default combo) and zero AD. -/
def msQ : MyState := { champion := "unknownchamp", total_ad := 0 }

/-- Attacker with a large negative total AD (adversarial snapshot). -/
def msNeg : MyState := { champion := "unknownchamp", total_ad := -100000 }

/-- Target with an observed real max HP and an HP item (C1). -/
def enC1 : Enemy :=
  { champion := "warwick", level := 1, items := ["Warmogs Armor"], hp_max_real := some 2000 }

/-- Target holding the `sterak_gage` percent-shield item (C2). -/
def enC2 : Enemy := { champion := "warwick", level := 1, items := ["sterak gage"] }

/-- Unknown-champion target with no items or summoners. -/
def enPlain : Enemy := { champion := "anotherunknown" }

/-- Unknown-champion target holding Barrier (C5). -/
def enC5 : Enemy := { champion := "anotherunknown", summoners := ["SummonerBarrier"] }

/-- The evaluated result of the C4 witness call. -/
def rC4w : KillCalcResult :=
  (calculate_kill_chance msQ enPlain none none 0 100).getD (initResult enPlain msQ)

/-- The evaluated result of the C5 witness call. -/
def rC5w : KillCalcResult :=
  (calculate_kill_chance msQ enC5 none none 0 100).getD (initResult enC5 msQ)

/-- Unknown-champion target holding six copies of Eclipse: six penalty
sources of 0.05 each (C4). -/
def enC4 : Enemy :=
  { champion := "anotherunknown",
    items := ["eclipse", "eclipse", "eclipse", "eclipse", "eclipse", "eclipse"] }

/-! ## Generic lookup and table lemmas -/

theorem lookup_getD_prop {α : Type} {P : α → Prop} (k : String) (d : α) :
    ∀ l : List (String × α), (∀ p ∈ l, P p.2) → P d →
      P ((List.lookup k l).getD d) := by
  intro l
  induction l with
  | nil => intro _ hd; exact hd
  | cons p t ih =>
      intro hl hd
      simp only [List.lookup]
      cases hbe : (k == p.1) with
      | true => simpa using hl p (by simp)
      | false => exact ih (fun q hq => hl q (by simp [hq])) hd

theorem champion_stats_ok : ∀ p ∈ CHAMPION_STATS, ChampOk p.2 := by
  simp only [CHAMPION_STATS, List.forall_mem_cons, List.forall_mem_nil, ChampOk, _default_champ]
  norm_num

theorem get_champion_stats_ok (name : String) : ChampOk (get_champion_stats name) :=
  lookup_getD_prop _ _ _ champion_stats_ok (by norm_num [ChampOk, _default_champ])

theorem item_stats_hp_ok : ∀ p ∈ ITEM_STATS, ItemHpOk p.2 := by
  simp only [ITEM_STATS, List.forall_mem_cons, List.forall_mem_nil, ItemHpOk]
  norm_num

theorem item_stats_get_hp_ok (key : String) : ItemHpOk (item_stats_get key) :=
  lookup_getD_prop _ _ _ item_stats_hp_ok (by norm_num [ItemHpOk])

theorem champion_combos_ok : ∀ p ∈ CHAMPION_COMBOS, ComboOk p.2 := by
  simp only [CHAMPION_COMBOS, _default_combo, ComboOk, CompOk,
    List.forall_mem_cons, List.forall_mem_nil]
  norm_num

theorem get_combo_ok (name : String) : ComboOk (get_combo name) :=
  lookup_getD_prop _ _ _ champion_combos_ok
    (by simp only [ComboOk, CompOk, _default_combo, List.forall_mem_cons,
          List.forall_mem_nil]
        norm_num)

theorem summoner_adjustments_ok : ∀ p ∈ SUMMONER_ADJUSTMENTS, SummOk p.2 := by
  simp only [SUMMONER_ADJUSTMENTS, List.forall_mem_cons, List.forall_mem_nil,
    SummOk, opt_nonneg]
  norm_num

theorem summoner_get_ok (s : String) :
    SummOk ((List.lookup s SUMMONER_ADJUSTMENTS).getD {}) :=
  lookup_getD_prop _ _ _ summoner_adjustments_ok
    (by constructor <;> trivial)

/-! ## Rounding lemmas -/

theorem roundHalfEven_nonneg (x : ℚ) (hx : 0 ≤ x) : 0 ≤ roundHalfEven x := by
  unfold roundHalfEven
  have hf : (0 : Int) ≤ ⌊x⌋ := Int.le_floor.2 (by simpa using hx)
  split_ifs <;> omega

theorem roundHalfEven_le_int (x : ℚ) (n : Int) (hx : x ≤ n) : roundHalfEven x ≤ n := by
  unfold roundHalfEven
  have hfx : (⌊x⌋ : ℚ) ≤ x := Int.floor_le x
  have hf : ⌊x⌋ ≤ n := by
    have h := Int.floor_le_floor hx
    simpa using h
  rcases lt_or_eq_of_le hf with hlt | heq
  · split_ifs <;> omega
  · have hxeq : x = (n : ℚ) := le_antisymm hx (by rw [← heq]; exact hfx)
    have hr : x - (⌊x⌋ : ℚ) < 1/2 := by rw [heq, hxeq]; norm_num
    rw [if_pos hr]; exact hf

theorem pyRound3_bounds (x : ℚ) (h0 : 0 ≤ x) (h1 : x ≤ 97/100) :
    0 ≤ pyRound x 3 ∧ pyRound x 3 ≤ 97/100 := by
  unfold pyRound
  have hp : (0 : ℚ) < (10 : ℚ) ^ (3 : Nat) := by norm_num
  constructor
  · apply div_nonneg _ (le_of_lt hp)
    exact_mod_cast roundHalfEven_nonneg _ (by positivity)
  · rw [div_le_iff₀ hp]
    have h := roundHalfEven_le_int (x * (10 : ℚ) ^ (3 : Nat)) 970 (by push_cast; nlinarith)
    calc (roundHalfEven (x * (10 : ℚ) ^ (3 : Nat)) : ℚ) ≤ 970 := by exact_mod_cast h
      _ = 97/100 * (10 : ℚ) ^ (3 : Nat) := by norm_num

/-! ## Claim theorems -/

/-- C6: `_dmg_reduction 0 = 1`, `_dmg_reduction 100 = 1/2`, and for every
negative effective armor the multiplier lies strictly between 1 and 2,
approaching 2 as the armor tends to negative infinity. -/
theorem dmg_reduction_spec :
    _dmg_reduction 0 = 1 ∧ _dmg_reduction 100 = 1/2 ∧
    (∀ a : ℚ, a < 0 → 1 < _dmg_reduction a ∧ _dmg_reduction a < 2) ∧
    (∀ ε : ℚ, 0 < ε → ∃ a : ℚ, a < 0 ∧ 2 - ε < _dmg_reduction a) := by
  refine ⟨by norm_num [_dmg_reduction], by norm_num [_dmg_reduction], ?_, ?_⟩
  · intro a ha
    have h100 : (0:ℚ) < 100 - a := by linarith
    have hlt : 100 / (100 - a) < 1 := (div_lt_one h100).2 (by linarith)
    have hpos : 0 < 100 / (100 - a) := by positivity
    rw [_dmg_reduction, if_neg (not_le.2 ha)]
    constructor <;> linarith
  · intro ε hε
    have ha1 : min (-1 : ℚ) (99 - 100/ε) ≤ -1 := min_le_left _ _
    have ha2 : min (-1 : ℚ) (99 - 100/ε) ≤ 99 - 100/ε := min_le_right _ _
    refine ⟨min (-1) (99 - 100/ε), by linarith, ?_⟩
    have ha0 : min (-1 : ℚ) (99 - 100/ε) < 0 := by linarith
    have h100 : (0:ℚ) < 100 - min (-1 : ℚ) (99 - 100/ε) := by linarith
    rw [_dmg_reduction, if_neg (not_le.2 ha0)]
    have he : ε * (100 / ε) = 100 := by field_simp
    have h3 : 1 + 100/ε ≤ 100 - min (-1 : ℚ) (99 - 100/ε) := by linarith
    have h4 : ε * (1 + 100/ε) ≤ ε * (100 - min (-1 : ℚ) (99 - 100/ε)) :=
      mul_le_mul_of_nonneg_left h3 (le_of_lt hε)
    have h5 : ε * (1 + 100/ε) = ε + 100 := by rw [mul_add, mul_one, he]
    have hkey : 100 / (100 - min (-1 : ℚ) (99 - 100/ε)) < ε := by
      rw [div_lt_iff₀ h100]
      linarith
    linarith

/-- C6 witness: the negative-armor bounds at `a = -50` and the
approach-to-2 statement at `ε = 1/10`. -/
theorem dmg_reduction_spec_witness :
    (1 < _dmg_reduction (-50) ∧ _dmg_reduction (-50) < 2) ∧
    (∃ a : ℚ, a < 0 ∧ 2 - 1/10 < _dmg_reduction a) :=
  ⟨dmg_reduction_spec.2.2.1 (-50) (by norm_num),
   dmg_reduction_spec.2.2.2 (1/10) (by norm_num)⟩

/-- C10: `_calc_effective_armor` is always nonnegative, so inside
`calculate_kill_chance` the negative-armor branch of `_dmg_reduction` is
unreachable and the physical multiplier never exceeds 1. -/
theorem effective_armor_nonneg_spec :
    ∀ (base_armor : ℚ) (ms : MyState),
      0 ≤ _calc_effective_armor base_armor ms ∧
      _dmg_reduction (_calc_effective_armor base_armor ms) =
        100 / (100 + _calc_effective_armor base_armor ms) ∧
      _dmg_reduction (_calc_effective_armor base_armor ms) ≤ 1 := by
  intro b ms
  have h0 : 0 ≤ _calc_effective_armor b ms := le_max_left _ _
  refine ⟨h0, by rw [_dmg_reduction, if_pos h0], ?_⟩
  rw [_dmg_reduction, if_pos h0, div_le_one (by linarith)]
  linarith

/-- C7: for a component with a rank source and a non-empty base table,
any rank at or beyond the table length selects the table's last entry;
a 5-entry table queried at rank 7 equals rank 5; and the rank-derived
index never exceeds the last index. -/
theorem rank_clamp_spec :
    (∀ (comp : DamageComponent) (ranks : List (String × Int)) (k : String)
       (hk : comp.rank_index = some k) (hne : comp.base ≠ [])
       (hr : (comp.base.length : Int) ≤ ranks_get ranks k),
       get_base_damage_at_rank comp ranks = some (comp.base.getLast hne)) ∧
    (∀ (comp : DamageComponent) (k : String),
       comp.rank_index = some k → comp.base.length = 5 →
       get_base_damage_at_rank comp [(k, 7)] = get_base_damage_at_rank comp [(k, 5)]) ∧
    (∀ (comp : DamageComponent) (ranks : List (String × Int)) (k : String),
       comp.rank_index = some k →
       min (ranks_get ranks k - 1) ((comp.base.length : Int) - 1) ≤
         (comp.base.length : Int) - 1) := by
  have main : ∀ (comp : DamageComponent) (ranks : List (String × Int)) (k : String)
      (hk : comp.rank_index = some k) (hne : comp.base ≠ [])
      (hr : (comp.base.length : Int) ≤ ranks_get ranks k),
      get_base_damage_at_rank comp ranks = some (comp.base.getLast hne) := by
    intro comp ranks k hk hne hr
    have hlen : 0 < comp.base.length := List.length_pos.2 hne
    unfold get_base_damage_at_rank
    rw [hk]
    dsimp only
    have hmin : min (ranks_get ranks k - 1) ((comp.base.length : Int) - 1) =
        (comp.base.length : Int) - 1 := min_eq_right (by omega)
    rw [hmin]
    unfold pyIndex
    rw [if_pos (by omega : (0:Int) ≤ (comp.base.length : Int) - 1)]
    have htn : ((comp.base.length : Int) - 1).toNat = comp.base.length - 1 := by omega
    rw [htn]
    have hlt : comp.base.length - 1 < comp.base.length := by omega
    rw [List.get?_eq_getElem?, List.getElem?_eq_getElem hlt,
      List.getLast_eq_getElem comp.base hne]
  refine ⟨main, ?_, ?_⟩
  · intro comp k hk h5
    have hne : comp.base ≠ [] := by
      intro h; rw [h] at h5; simp at h5
    have h7 : ranks_get [(k, 7)] k = 7 := by simp [ranks_get, List.lookup]
    have h5r : ranks_get [(k, 5)] k = 5 := by simp [ranks_get, List.lookup]
    rw [main comp [(k, 7)] k hk hne (by rw [h7, h5]; norm_num),
      main comp [(k, 5)] k hk hne (by rw [h5r, h5]; norm_num)]
  · intro comp ranks k _
    exact min_le_right _ _

/-- C7 witness: the Kha\x27Zix Q component (5 base entries) queried at rank 7
yields the last entry. -/
theorem rank_clamp_spec_witness :
    (compQ.base.length : Int) ≤ ranks_get [("q", 7)] "q" ∧
    get_base_damage_at_rank compQ [("q", 7)] =
      some (compQ.base.getLast (by simp [compQ])) :=
  ⟨by simp [compQ, ranks_get, List.lookup],
   rank_clamp_spec.1 compQ [("q", 7)] "q" rfl (by simp [compQ])
     (by simp [compQ, ranks_get, List.lookup])⟩

/-- Appending an item whose normalized key is not in `ITEM_STATS` leaves
the item-loop accumulator unchanged. -/
theorem _item_step_unknown (acc : ItemAcc) (item : String)
    (h : List.lookup (_normalize_item_key item) ITEM_STATS = none) :
    _item_step acc item = acc := by
  have hdd : (_normalize_item_key item == "deaths_dance") = false := by
    cases hb : (_normalize_item_key item == "deaths_dance") with
    | false => rfl
    | true =>
        have heq : _normalize_item_key item = "deaths_dance" := eq_of_beq hb
        rw [heq] at h
        have hsome : (List.lookup "deaths_dance" ITEM_STATS).isSome = true := rfl
        rw [h] at hsome
        simp at hsome
  have hstats : item_stats_get (_normalize_item_key item) = {} := by
    unfold item_stats_get; rw [h]; rfl
  unfold _item_step
  dsimp only
  rw [hstats, hdd]
  cases acc
  simp

/-- C9: unknown champion ids resolve to the `_default` stats entry and the
`_default` combo, unknown item ids resolve to the empty stats record and
contribute nothing to the built enemy stats; all lookups are total
functions, so no input raises. -/
theorem unknown_id_fallback_spec :
    (∀ name : String, List.lookup (_normalize_champ_key name) CHAMPION_STATS = none →
       get_champion_stats name = _default_champ) ∧
    (∀ name : String, List.lookup (_normalize_champ_key name) CHAMPION_COMBOS = none →
       get_combo name = _default_combo) ∧
    (∀ item : String, List.lookup (_normalize_item_key item) ITEM_STATS = none →
       get_item_stats item = {}) ∧
    (∀ (enemy : Enemy) (ov : Option ℚ) (item : String),
       List.lookup (_normalize_item_key item) ITEM_STATS = none →
       _build_enemy_stats { enemy with items := enemy.items ++ [item] } ov =
         _build_enemy_stats enemy ov) := by
  refine ⟨?_, ?_, ?_, ?_⟩
  · intro name h; unfold get_champion_stats; rw [h]; rfl
  · intro name h; unfold get_combo; rw [h]; rfl
  · intro item h; unfold get_item_stats; rw [h]; rfl
  · intro enemy ov item h
    unfold _build_enemy_stats
    simp only [List.foldl_append, List.foldl_cons, List.foldl_nil,
      _item_step_unknown _ item h]

/-- C9 witness: concrete unknown champion and item ids. -/
theorem unknown_id_fallback_spec_witness :
    get_champion_stats "Teemo" = _default_champ ∧
    get_combo "Teemo" = _default_combo ∧
    get_item_stats "Void Staff" = {} ∧
    _build_enemy_stats { champion := "warwick", items := [] ++ ["Void Staff"] } none =
      _build_enemy_stats { champion := "warwick" } none :=
  ⟨unknown_id_fallback_spec.1 "Teemo" rfl,
   unknown_id_fallback_spec.2.1 "Teemo" rfl,
   unknown_id_fallback_spec.2.2.1 "Void Staff" rfl,
   unknown_id_fallback_spec.2.2.2 { champion := "warwick" } none "Void Staff" rfl⟩

/-- C8: for every champion entry of the reference table (including
`_default`), armor, MR, and max HP computed by `calculate_stats_at_level`
are monotone in the level, and out-of-range levels are clamped to [1, 18]. -/
theorem level_monotonicity_spec :
    ∀ (name : String) (s : ChampBase), (name, s) ∈ CHAMPION_STATS →
      ∀ (L1 L2 : Int), L1 ≤ L2 →
        (calculate_stats_at_level name L1).armor ≤ (calculate_stats_at_level name L2).armor ∧
        (calculate_stats_at_level name L1).mr ≤ (calculate_stats_at_level name L2).mr ∧
        (calculate_stats_at_level name L1).max_hp ≤ (calculate_stats_at_level name L2).max_hp ∧
        calculate_stats_at_level name L1 =
          calculate_stats_at_level name (max 1 (min 18 L1)) := by
  intro name s hmem L1 L2 hL
  obtain ⟨hba, hpa, hbm, hpm, hbh, hph⟩ := get_champion_stats_ok name
  have hcl : max 1 (min 18 L1) ≤ max 1 (min 18 L2) :=
    max_le_max le_rfl (min_le_min le_rfl hL)
  have hcast : ((max 1 (min 18 L1) : Int) : ℚ) ≤ ((max 1 (min 18 L2) : Int) : ℚ) := by
    exact_mod_cast hcl
  have hsub : ((max 1 (min 18 L1) : Int) : ℚ) - 1 ≤ ((max 1 (min 18 L2) : Int) : ℚ) - 1 := by
    linarith
  have hidem : max 1 (min 18 (max 1 (min 18 L1))) = max 1 (min 18 L1) := by
    have h18 : min 18 L1 ≤ 18 := min_le_left _ _
    have h1 : (1 : Int) ≤ max 1 (min 18 L1) := le_max_left _ _
    have h18' : max 1 (min 18 L1) ≤ 18 := max_le (by norm_num) h18
    rw [min_eq_right h18', max_eq_right h1]
  unfold calculate_stats_at_level
  dsimp only
  refine ⟨?_, ?_, ?_, ?_⟩
  · have := mul_le_mul_of_nonneg_left hsub hpa; linarith
  · have := mul_le_mul_of_nonneg_left hsub hpm; linarith
  · have := mul_le_mul_of_nonneg_left hsub hph; linarith
  · rw [hidem]

/-- C8 witness: Bel\x27Veth at levels 2 and 9. -/
theorem level_monotonicity_spec_witness :
    (calculate_stats_at_level "belveth" 2).armor ≤
      (calculate_stats_at_level "belveth" 9).armor ∧
    (calculate_stats_at_level "belveth" 2).mr ≤
      (calculate_stats_at_level "belveth" 9).mr ∧
    (calculate_stats_at_level "belveth" 2).max_hp ≤
      (calculate_stats_at_level "belveth" 9).max_hp ∧
    calculate_stats_at_level "belveth" 2 =
      calculate_stats_at_level "belveth" (max 1 (min 18 2)) :=
  level_monotonicity_spec "belveth" ⟨21, 4.7, 32, 2.05, 640, 105⟩
    (by unfold CHAMPION_STATS; exact List.mem_cons_self _ _) 2 9 (by norm_num)

/-- C3: the auto-pause gate short-circuits before any stat or damage
computation (a paused result carries only the champions, the flag and the
reason, all other fields at their defaults), its reasons are checked
first-match-wins in the fixed order pre-game, low attacker HP, target
dead, late game; when no gate fires the result is not paused.  In
particular, outside the pre-game window, low attacker HP wins over a dead
target. -/
theorem auto_pause_gate_spec :
    ∀ (ms : MyState) (enemy : Enemy) (ov mhp : Option ℚ) (allies : Int) (gt : ℚ),
      (0 < gt ∧ gt < 10 →
        calculate_kill_chance ms enemy ov mhp allies gt =
          some { initResult enemy ms with
                 paused := true
                 pause_reason := "Pre-game (< 10s)" }) ∧
      (¬(0 < gt ∧ gt < 10) → _my_hp mhp ms < MIN_MY_HP_TO_ENGAGE →
        calculate_kill_chance ms enemy ov mhp allies gt =
          some { initResult enemy ms with
                 paused := true
                 pause_reason := "Your HP too low (" ++ _format_pct (_my_hp mhp ms) ++ ")" }) ∧
      (¬(0 < gt ∧ gt < 10) → ¬(_my_hp mhp ms < MIN_MY_HP_TO_ENGAGE) →
        enemy.is_dead = true →
        calculate_kill_chance ms enemy ov mhp allies gt =
          some { initResult enemy ms with
                 paused := true
                 pause_reason := "Enemy is dead" }) ∧
      (¬(0 < gt ∧ gt < 10) → ¬(_my_hp mhp ms < MIN_MY_HP_TO_ENGAGE) →
        enemy.is_dead = false → 45 * 60 < gt →
        calculate_kill_chance ms enemy ov mhp allies gt =
          some { initResult enemy ms with
                 paused := true
                 pause_reason := "Late game (>45min) — calc unreliable" }) ∧
      (¬(0 < gt ∧ gt < 10) → ¬(_my_hp mhp ms < MIN_MY_HP_TO_ENGAGE) →
        enemy.is_dead = false → ¬(45 * 60 < gt) →
        ∀ r, calculate_kill_chance ms enemy ov mhp allies gt = some r →
          r.paused = false) ∧
      (¬(0 < gt ∧ gt < 10) → _my_hp mhp ms < MIN_MY_HP_TO_ENGAGE →
        enemy.is_dead = true →
        calculate_kill_chance ms enemy ov mhp allies gt =
          some { initResult enemy ms with
                 paused := true
                 pause_reason := "Your HP too low (" ++ _format_pct (_my_hp mhp ms) ++ ")" }) := by
  intro ms enemy ov mhp allies gt
  refine ⟨?_, ?_, ?_, ?_, ?_, ?_⟩
  · intro h1
    unfold calculate_kill_chance
    rw [if_pos h1]
  · intro h1 h2
    unfold calculate_kill_chance
    rw [if_neg h1, if_pos h2]
  · intro h1 h2 h3
    unfold calculate_kill_chance
    rw [if_neg h1, if_neg h2, if_pos h3]
  · intro h1 h2 h3 h4
    unfold calculate_kill_chance
    rw [if_neg h1, if_neg h2, if_neg (by simp [h3]), if_pos h4]
  · intro h1 h2 h3 h4 r hr
    unfold calculate_kill_chance at hr
    rw [if_neg h1, if_neg h2, if_neg (by simp [h3]), if_neg h4] at hr
    dsimp only at hr
    cases hcd : _calculate_combo_damage ms (_build_enemy_stats enemy ov) ms.spell_ranks with
    | none => rw [hcd] at hr; exact absurd hr (by simp)
    | some cd =>
        rw [hcd] at hr
        dsimp only at hr
        injection hr with h
        rw [← h]
        rfl
  · intro h1 h2 h3
    unfold calculate_kill_chance
    rw [if_neg h1, if_pos h2]

/-- C3 witness: attacker HP 20% and a dead target at game time 100s pause
with the attacker-HP reason. -/
theorem auto_pause_gate_spec_witness :
    calculate_kill_chance msLow enDead none none 0 100 =
      some { initResult enDead msLow with
             paused := true
             pause_reason := "Your HP too low (" ++ _format_pct (_my_hp none msLow) ++ ")" } :=
  (auto_pause_gate_spec msLow enDead none none 0 100).2.2.2.2.2
    (by norm_num) (by norm_num [_my_hp, msLow, MIN_MY_HP_TO_ENGAGE]) rfl

theorem roundHalfEven_intCast (n : Int) : roundHalfEven (n : ℚ) = n := by
  unfold roundHalfEven
  rw [Int.floor_intCast]
  norm_num

theorem pyRound_eq_self_of_int (x : ℚ) (n : Int) (d : Nat) (h : x * 10 ^ d = (n : ℚ)) :
    pyRound x d = x := by
  unfold pyRound
  rw [show x * (10:ℚ)^d = (n:ℚ) from h, roundHalfEven_intCast, ← h]
  field_simp

theorem eq_some_getD {α : Type} (o : Option α) (d : α) (h : o.isSome = true) :
    o = some (o.getD d) := by
  cases o with
  | none => simp at h
  | some a => rfl

/-- C1: with `hp_max_real = 2000` and a held Warmog (HP 1000), the built
max HP is 3000, not the observed 2000 — the override is applied before the
item loop, so item HP deltas are added on top of the observed value;
armor and MR are the computed values. -/
theorem hp_override_double_count :
    (_build_enemy_stats enC1 none).max_hp = 3000 ∧
    (2000 : ℚ) < (_build_enemy_stats enC1 none).max_hp ∧
    (_build_enemy_stats enC1 none).armor = 33 ∧
    (_build_enemy_stats enC1 none).mr = 32 := by
  have hn : _normalize_item_key "Warmogs Armor" = "warmogs_armor" := rfl
  have hi : item_stats_get "warmogs_armor" = { hp := 1000 } := rfl
  have hc : get_champion_stats "warwick" = ⟨33, 4.7, 32, 2.05, 653, 99⟩ := rfl
  refine ⟨?_, ?_, ?_, ?_⟩ <;>
    norm_num [_build_enemy_stats, enC1, _item_step, hn, hi, hc,
      calculate_stats_at_level, min_def, max_def]

/-- C2: the `sterak_gage` percent-of-max-HP shield (stored as the number
0.20) passes the numeric test and is added to effective HP as a flat 0.2
(reported effective HP 1053.2 instead of 1053), flagged as a "+0 shield";
the 0.08 penalty per shield source does apply. -/
theorem sterak_percent_shield_numeric :
    (_build_enemy_stats enC2 none).item_shields = [("sterak gage", Sum.inl 0.20)] ∧
    (_ehp_item_stage (_build_enemy_stats enC2 none)).1 =
      (_build_enemy_stats enC2 none).current_hp + 0.20 ∧
    (_ehp_item_stage (_build_enemy_stats enC2 none)).2.1 = 0.08 ∧
    (calculate_kill_chance msQ enC2 none none 0 100).map KillCalcResult.enemy_effective_hp
      = some (5266/5) ∧
    (calculate_kill_chance msQ enC2 none none 0 100).map KillCalcResult.item_flags
      = some ["⚠ sterak gage: +0 shield"] := by
  have hn : _normalize_item_key "sterak gage" = "sterak_gage" := rfl
  have hi : item_stats_get "sterak_gage" =
    { hp := 400, passive_shield := some (Sum.inl 0.20) } := rfl
  have hc : get_champion_stats "warwick" = ⟨33, 4.7, 32, 2.05, 653, 99⟩ := rfl
  have hcombo : get_combo "unknownchamp" = _default_combo := rfl
  have hdd : ("sterak_gage" = "deaths_dance") = False := eq_false (by decide)
  have hr0 : roundHalfEven (1/5 : ℚ) = 0 := by norm_num [roundHalfEven]
  have htflag : toString (roundHalfEven (1/5 : ℚ)) = "0" := by rw [hr0]; rfl
  have hpy : pyRound (5266/5) 1 = 5266/5 := pyRound_eq_self_of_int _ 10532 _ (by norm_num)
  have hes : _build_enemy_stats enC2 none =
      ⟨33, 32, 1053, 1053, 1, [("sterak gage", Sum.inl 0.20)], false, false⟩ := by
    norm_num [_build_enemy_stats, enC2, _item_step, hn, hi, hc,
      calculate_stats_at_level, min_def, max_def, shieldTruthy, bne_iff_ne, hdd]
  refine ⟨?_, ?_, ?_, ?_, ?_⟩
  · rw [hes]
  · rw [hes]; norm_num [_ehp_item_stage, _shield_fold, _shield_step]
  · rw [hes]; norm_num [_ehp_item_stage, _shield_fold, _shield_step]
  · norm_num [calculate_kill_chance, msQ, enC2, _my_hp, MIN_MY_HP_TO_ENGAGE,
      _build_enemy_stats, _item_step, hn, hi, hc, calculate_stats_at_level,
      min_def, max_def, shieldTruthy, bne_iff_ne, _calculate_combo_damage,
      hcombo, _default_combo, _combo_fold, _combo_step, get_base_damage_at_rank,
      _calc_effective_armor, _dmg_reduction, _mr_reduction, _active_item_damage, _active_step,
      _ehp_item_stage, _shield_fold, _shield_step, _summoner_stage, _summoner_step, _cd_stage, _cd_step,
      ITEM_CD_FLAGS, List.lookup, initResult, hdd, htflag, hpy, _evaluated_result,
      THRESHOLD_GO, THRESHOLD_RISKY, get_combo]
  · norm_num [calculate_kill_chance, msQ, enC2, _my_hp, MIN_MY_HP_TO_ENGAGE,
      _build_enemy_stats, _item_step, hn, hi, hc, calculate_stats_at_level,
      min_def, max_def, shieldTruthy, bne_iff_ne, _calculate_combo_damage,
      hcombo, _default_combo, _combo_fold, _combo_step, get_base_damage_at_rank,
      _calc_effective_armor, _dmg_reduction, _mr_reduction, _active_item_damage, _active_step,
      _ehp_item_stage, _shield_fold, _shield_step, _summoner_stage, _summoner_step, _cd_stage, _cd_step,
      ITEM_CD_FLAGS, List.lookup, initResult, hdd, htflag, hpy, _evaluated_result,
      THRESHOLD_GO, THRESHOLD_RISKY, get_combo]
    exact ⟨rfl, rfl⟩

theorem summ_hp_step_mul (x m : ℚ) (s : String) :
    _summ_hp_step (x * m) s = x * _summ_hp_step m s := by
  unfold _summ_hp_step
  cases h : ((List.lookup s SUMMONER_ADJUSTMENTS).getD {}).hp_modifier with
  | none => rfl
  | some q => dsimp only; ring

theorem summ_prod_fold (ss : List String) : ∀ x y : ℚ,
    ss.foldl _summ_hp_step (x * y) = x * ss.foldl _summ_hp_step y := by
  induction ss with
  | nil => intro x y; rfl
  | cons s t ih =>
      intro x y
      simp only [List.foldl_cons, summ_hp_step_mul, ih]

/-- The summoner loop multiplies effective HP by the product of the HP
multipliers, keeps the damage modifier nonnegative, and only increases the
accumulated penalty. -/
theorem summoner_stage_props (ss : List String) :
    ∀ a : ℚ × ℚ × ℚ × List String,
      (ss.foldl _summoner_step a).1 = a.1 * _summoner_hp_product ss ∧
      (0 ≤ a.2.1 → 0 ≤ (ss.foldl _summoner_step a).2.1) ∧
      a.2.2.1 ≤ (ss.foldl _summoner_step a).2.2.1 := by
  induction ss with
  | nil =>
      intro a
      exact ⟨by simp [_summoner_hp_product], fun h => h, le_refl _⟩
  | cons s t ih =>
      intro a
      obtain ⟨hsm1, hsm2⟩ := summoner_get_ok s
      have hprod : _summoner_hp_product (s :: t) =
          _summ_hp_step 1 s * _summoner_hp_product t := by
        unfold _summoner_hp_product
        rw [List.foldl_cons]
        have h5 := summ_prod_fold t (_summ_hp_step 1 s) 1
        rw [mul_one] at h5
        exact h5
      simp only [List.foldl_cons]
      obtain ⟨ih1, ih2, ih3⟩ := ih (_summoner_step a s)
      cases h1 : ((List.lookup s SUMMONER_ADJUSTMENTS).getD {}).hp_modifier with
      | none =>
          cases h2 : ((List.lookup s SUMMONER_ADJUSTMENTS).getD {}).my_dmg_modifier with
          | none =>
              refine ⟨?_, ?_, ?_⟩
              · rw [ih1, hprod]
                simp only [_summoner_step, _summ_hp_step, h1, h2]
                ring
              · intro ha
                apply ih2
                simp only [_summoner_step, h1, h2]
                exact ha
              · refine le_trans ?_ ih3
                simp only [_summoner_step, h1, h2]
                exact le_refl _
          | some m2 =>
              rw [h2] at hsm2
              refine ⟨?_, ?_, ?_⟩
              · rw [ih1, hprod]
                simp only [_summoner_step, _summ_hp_step, h1, h2]
                ring
              · intro ha
                apply ih2
                simp only [_summoner_step, h1, h2]
                exact mul_nonneg ha hsm2
              · refine le_trans ?_ ih3
                simp only [_summoner_step, h1, h2]
                linarith
      | some m1 =>
          cases h2 : ((List.lookup s SUMMONER_ADJUSTMENTS).getD {}).my_dmg_modifier with
          | none =>
              refine ⟨?_, ?_, ?_⟩
              · rw [ih1, hprod]
                simp only [_summoner_step, _summ_hp_step, h1, h2]
                ring
              · intro ha
                apply ih2
                simp only [_summoner_step, h1, h2]
                exact ha
              · refine le_trans ?_ ih3
                simp only [_summoner_step, h1, h2]
                linarith
          | some m2 =>
              rw [h2] at hsm2
              refine ⟨?_, ?_, ?_⟩
              · rw [ih1, hprod]
                simp only [_summoner_step, _summ_hp_step, h1, h2]
                ring
              · intro ha
                apply ih2
                simp only [_summoner_step, h1, h2]
                exact mul_nonneg ha hsm2
              · refine le_trans ?_ ih3
                simp only [_summoner_step, h1, h2]
                linarith

/-- Every non-paused `some` result comes from the evaluated branch. -/
theorem calc_evaluated :
    ∀ (ms : MyState) (enemy : Enemy) (ov mhp : Option ℚ) (allies : Int) (gt : ℚ)
      (r : KillCalcResult),
      calculate_kill_chance ms enemy ov mhp allies gt = some r → r.paused = false →
      ∃ cd, _calculate_combo_damage ms (_build_enemy_stats enemy ov) ms.spell_ranks
              = some cd ∧
        r = _evaluated_result ms enemy ov allies cd := by
  intro ms enemy ov mhp allies gt r hr hp
  unfold calculate_kill_chance at hr
  dsimp only at hr
  by_cases h1 : 0 < gt ∧ gt < 10
  · rw [if_pos h1] at hr; injection hr with h; rw [← h] at hp; simp at hp
  rw [if_neg h1] at hr
  by_cases h2 : _my_hp mhp ms < MIN_MY_HP_TO_ENGAGE
  · rw [if_pos h2] at hr; injection hr with h; rw [← h] at hp; simp at hp
  rw [if_neg h2] at hr
  by_cases h3 : enemy.is_dead
  · rw [if_pos h3] at hr; injection hr with h; rw [← h] at hp; simp at hp
  rw [if_neg h3] at hr
  by_cases h4 : (45 * 60 : ℚ) < gt
  · rw [if_pos h4] at hr; injection hr with h; rw [← h] at hp; simp at hp
  rw [if_neg h4] at hr
  cases hcd : _calculate_combo_damage ms (_build_enemy_stats enemy ov) ms.spell_ranks with
  | none => rw [hcd] at hr; exact absurd hr (by simp)
  | some cd =>
      rw [hcd] at hr
      injection hr with h
      exact ⟨cd, rfl, h.symm⟩

/-- C5 (amended): on every evaluated call, a held summoner HP multiplier
is applied to the effective HP used as the kill-ratio denominator (the
denominator equals the pre-summoner effective HP times the product of the
multipliers), but the reported `enemy_effective_hp` is recorded before the
summoner loop and therefore excludes those multipliers. -/
theorem effective_hp_report_spec :
    ∀ (ms : MyState) (enemy : Enemy) (ov mhp : Option ℚ) (allies : Int) (gt : ℚ)
      (r : KillCalcResult),
      calculate_kill_chance ms enemy ov mhp allies gt = some r → r.paused = false →
      r.enemy_effective_hp = pyRound (_effective_hp_pre_summoners enemy ov) 1 ∧
      _effective_hp_final enemy ov =
        _effective_hp_pre_summoners enemy ov * _summoner_hp_product enemy.summoners ∧
      ∀ d, _adjusted_dealt ms enemy ov = some d →
        r.kill_ratio_val = pyRound (d / max (_effective_hp_final enemy ov) 1) 3 := by
  intro ms enemy ov mhp allies gt r hr hp
  obtain ⟨cd, hcd, hre⟩ := calc_evaluated ms enemy ov mhp allies gt r hr hp
  subst hre
  refine ⟨rfl, ?_, ?_⟩
  · exact (summoner_stage_props enemy.summoners
      (_effective_hp_pre_summoners enemy ov, 1, 0, [])).1
  · intro d hd
    unfold _adjusted_dealt at hd
    dsimp only at hd
    rw [hcd] at hd
    dsimp only at hd
    injection hd with hd
    rw [← hd]
    rfl

/-- C5 counterexample: against a target holding Barrier, the reported
effective HP is 580 while the kill-ratio denominator effective HP is
725 = 580 × 1.25 — the reported value does not equal the denominator. -/
theorem effective_hp_report_counterexample :
    (calculate_kill_chance msQ enC5 none none 0 100).map KillCalcResult.enemy_effective_hp
      = some 580 ∧
    _effective_hp_final enC5 none = 725 ∧
    (580 : ℚ) < 725 ∧
    (calculate_kill_chance msQ enC5 none none 0 100).map KillCalcResult.kill_ratio_val
      = some (pyRound ((1875/8 : ℚ) / max (_effective_hp_final enC5 none) 1) 3) := by
  have hc : get_champion_stats "anotherunknown" = _default_champ := rfl
  have hcombo : get_combo "unknownchamp" = _default_combo := rfl
  have hpy580 : pyRound 580 1 = 580 := pyRound_eq_self_of_int _ 5800 _ (by norm_num)
  have hfin : _effective_hp_final enC5 none = 725 := by
    norm_num [_effective_hp_final, _effective_hp_pre_summoners, _build_enemy_stats,
      enC5, _ehp_item_stage, _shield_fold, _shield_step, _summoner_stage, _summoner_step,
      List.lookup, SUMMONER_ADJUSTMENTS, calculate_stats_at_level, hc,
      _default_champ, min_def, max_def]
  refine ⟨?_, hfin, by norm_num, ?_⟩
  · norm_num [calculate_kill_chance, msQ, enC5, _my_hp, MIN_MY_HP_TO_ENGAGE,
      _build_enemy_stats, _item_step, hc, _default_champ, calculate_stats_at_level,
      min_def, max_def, _calculate_combo_damage, hcombo, _default_combo,
      _combo_fold, _combo_step, get_base_damage_at_rank, _evaluated_result,
      _ehp_item_stage, _shield_fold, _shield_step, hpy580]
  · rw [hfin]
    norm_num [calculate_kill_chance, msQ, enC5, _my_hp, MIN_MY_HP_TO_ENGAGE,
      _build_enemy_stats, _item_step, hc, _default_champ, calculate_stats_at_level,
      min_def, max_def, _calculate_combo_damage, hcombo, _default_combo,
      _combo_fold, _combo_step, get_base_damage_at_rank, _evaluated_result,
      _calc_effective_armor, _dmg_reduction, _mr_reduction, _active_item_damage, _active_step,
      _ehp_item_stage, _shield_fold, _shield_step, _summoner_stage, _summoner_step, _cd_stage, _cd_step,
      ITEM_CD_FLAGS, List.lookup, SUMMONER_ADJUSTMENTS]

/-- C5 witness: the amended theorem applied to the Barrier scenario. -/
theorem effective_hp_report_spec_witness :
    rC5w.enemy_effective_hp = pyRound (_effective_hp_pre_summoners enC5 none) 1 ∧
    _effective_hp_final enC5 none =
      _effective_hp_pre_summoners enC5 none * _summoner_hp_product enC5.summoners := by
  have hc : get_champion_stats "anotherunknown" = _default_champ := rfl
  have hcombo : get_combo "unknownchamp" = _default_combo := rfl
  have hsome : (calculate_kill_chance msQ enC5 none none 0 100).isSome = true := by
    norm_num [calculate_kill_chance, msQ, enC5, _my_hp, MIN_MY_HP_TO_ENGAGE,
      _build_enemy_stats, _item_step, hc, _default_champ, calculate_stats_at_level,
      min_def, max_def, _calculate_combo_damage, hcombo, _default_combo,
      _combo_fold, _combo_step, get_base_damage_at_rank]
  have hcalc : calculate_kill_chance msQ enC5 none none 0 100 = some rC5w :=
    eq_some_getD _ _ hsome
  have hpm : (calculate_kill_chance msQ enC5 none none 0 100).map KillCalcResult.paused
      = some false := by
    norm_num [calculate_kill_chance, msQ, enC5, _my_hp, MIN_MY_HP_TO_ENGAGE,
      _build_enemy_stats, _item_step, hc, _default_champ, calculate_stats_at_level,
      min_def, max_def, _calculate_combo_damage, hcombo, _default_combo,
      _combo_fold, _combo_step, get_base_damage_at_rank, _evaluated_result]
  rw [hcalc] at hpm
  simp only [Option.map_some', Option.some.injEq] at hpm
  have h := effective_hp_report_spec msQ enC5 none none 0 100 rC5w hcalc hpm
  exact ⟨h.1, h.2.1⟩

/-! ## Nonnegativity lemmas for the evaluated branch -/

theorem dmg_reduction_pos (e : ℚ) : 0 < _dmg_reduction e := by
  unfold _dmg_reduction
  split_ifs with h
  · exact div_pos (by norm_num) (by linarith)
  · push_neg at h
    have h2 : (0:ℚ) < 100 - e := by linarith
    have h3 : 100 / (100 - e) < 1 := (div_lt_one h2).2 (by linarith)
    linarith

theorem mr_reduction_pos (m : ℚ) : 0 < _mr_reduction m := by
  unfold _mr_reduction
  exact div_pos (by norm_num) (by linarith [le_max_left (0:ℚ) m])

theorem pyIndex_mem (l : List ℚ) (i : Int) (v : ℚ) (h : pyIndex l i = some v) : v ∈ l := by
  unfold pyIndex at h
  dsimp only at h
  split_ifs at h with h1 h2
  · exact List.get?_mem h
  · exact List.get?_mem h

theorem get_base_nonneg (comp : DamageComponent) (ranks : List (String × Int)) (b : ℚ)
    (hok : CompOk comp) (h : get_base_damage_at_rank comp ranks = some b) : 0 ≤ b := by
  unfold get_base_damage_at_rank at h
  cases hk : comp.rank_index with
  | none =>
      rw [hk] at h
      dsimp only at h
      injection h with h
      cases hb : comp.base with
      | nil => rw [hb] at h; simp at h; rw [← h]
      | cons x t =>
          rw [hb] at h; simp at h; rw [← h]
          exact hok.1 x (by rw [hb]; exact List.mem_cons_self _ _)
  | some k =>
      rw [hk] at h
      dsimp only at h
      exact hok.1 b (pyIndex_mem _ _ _ h)

theorem combo_fold_nonneg (ad ap mhp : ℚ) (ranks : List (String × Int))
    (had : 0 ≤ ad) (hap : 0 ≤ ap) (hmhp : 0 ≤ mhp) :
    ∀ (comps : List DamageComponent) (acc : ℚ × ℚ × List (String × ℚ × String)),
      (∀ c ∈ comps, CompOk c) → 0 ≤ acc.1 → 0 ≤ acc.2.1 →
      ∀ res, _combo_fold ad ap mhp ranks comps acc = some res →
        0 ≤ res.1 ∧ 0 ≤ res.2.1 := by
  intro comps
  induction comps with
  | nil =>
      intro acc _ h1 h2 res hres
      unfold _combo_fold at hres
      injection hres with h
      rw [← h]; exact ⟨h1, h2⟩
  | cons c t ih =>
      intro acc hok h1 h2 res hres
      unfold _combo_fold at hres
      cases hstep : _combo_step ad ap mhp ranks acc c with
      | none => rw [hstep] at hres; exact absurd hres (by simp)
      | some acc₁ =>
          rw [hstep] at hres
          dsimp only at hres
          have hc := hok c (List.mem_cons_self _ _)
          unfold _combo_step at hstep
          cases hb : get_base_damage_at_rank c ranks with
          | none => rw [hb] at hstep; exact absurd hstep (by simp)
          | some b =>
              rw [hb] at hstep
              dsimp only at hstep
              have hbnn := get_base_nonneg c ranks b hc hb
              have hraw : 0 ≤ b + ad * c.ad_r + ap * c.ap_r + mhp * c.hp_r := by
                have t1 := mul_nonneg had hc.2.1
                have t2 := mul_nonneg hap hc.2.2.1
                have t3 := mul_nonneg hmhp hc.2.2.2
                linarith
              split_ifs at hstep with hd
              · injection hstep with hstep
                refine ih acc₁ (fun x hx => hok x (List.mem_cons_of_mem _ hx)) ?_ ?_ res hres
                · rw [← hstep]; dsimp only; linarith
                · rw [← hstep]; dsimp only; exact h2
              · injection hstep with hstep
                refine ih acc₁ (fun x hx => hok x (List.mem_cons_of_mem _ hx)) ?_ ?_ res hres
                · rw [← hstep]; dsimp only; exact h1
                · rw [← hstep]; dsimp only; linarith

theorem item_fold_max_hp (items : List String) :
    ∀ acc : ItemAcc, 0 ≤ acc.max_hp → 0 ≤ (items.foldl _item_step acc).max_hp := by
  induction items with
  | nil => intro acc h; exact h
  | cons i t ih =>
      intro acc h
      rw [List.foldl_cons]
      apply ih
      have hstep : (_item_step acc i).max_hp =
          acc.max_hp + (item_stats_get (_normalize_item_key i)).hp := rfl
      rw [hstep]
      have hh := item_stats_get_hp_ok (_normalize_item_key i)
      linarith [hh]

theorem build_stats_hp_nonneg (enemy : Enemy) (ov : Option ℚ)
    (hreal : ∀ v, enemy.hp_max_real = some v → 0 ≤ v) :
    0 ≤ (_build_enemy_stats enemy ov).max_hp ∧
    0 ≤ (_build_enemy_stats enemy ov).current_hp := by
  obtain ⟨hba, hpa, hbm, hpm, hbh, hph⟩ := get_champion_stats_ok enemy.champion
  have hclamp : (1:Int) ≤ max 1 (min 18 enemy.level) := le_max_left _ _
  have hcast : (1:ℚ) ≤ ((max 1 (min 18 enemy.level) : Int) : ℚ) := by exact_mod_cast hclamp
  have hbase : 0 ≤ (calculate_stats_at_level enemy.champion enemy.level).max_hp := by
    unfold calculate_stats_at_level
    dsimp only
    have hm := mul_nonneg hph
      (by linarith : (0:ℚ) ≤ ((max 1 (min 18 enemy.level) : Int) : ℚ) - 1)
    linarith
  unfold _build_enemy_stats
  dsimp only
  have hmax0 : ∀ m₀ : ℚ, 0 ≤ m₀ →
      0 ≤ (enemy.items.foldl _item_step
        ⟨(calculate_stats_at_level enemy.champion enemy.level).armor,
         (calculate_stats_at_level enemy.champion enemy.level).mr, m₀,
         [], false, false⟩).max_hp := by
    intro m₀ hm₀
    exact item_fold_max_hp enemy.items _ hm₀
  cases hv : enemy.hp_max_real with
  | none =>
      dsimp only
      constructor
      · exact hmax0 _ hbase
      · apply mul_nonneg (hmax0 _ hbase)
        split_ifs with h
        · norm_num
        · push_neg at h
          linarith [h.1]
  | some v =>
      dsimp only
      by_cases hz : v = 0
      · rw [if_pos hz]
        constructor
        · exact hmax0 _ hbase
        · apply mul_nonneg (hmax0 _ hbase)
          split_ifs with h
          · norm_num
          · push_neg at h
            linarith [h.1]
      · rw [if_neg hz]
        have hvn := hreal v hv
        constructor
        · exact hmax0 _ hvn
        · apply mul_nonneg (hmax0 _ hvn)
          split_ifs with h
          · norm_num
          · push_neg at h
            linarith [h.1]

theorem active_fold_nonneg (e : ℚ) (items : List String) :
    ∀ acc : ℚ × List String, 0 ≤ acc.1 → 0 ≤ (items.foldl (_active_step e) acc).1 := by
  induction items with
  | nil => intro acc h; exact h
  | cons i t ih =>
      intro acc h
      rw [List.foldl_cons]
      apply ih
      unfold _active_step
      dsimp only
      split_ifs with h1 h2
      · dsimp only
        have hm := mul_nonneg (le_of_lt h1) (le_of_lt (dmg_reduction_pos e))
        linarith
      · dsimp only
        linarith
      · exact h

theorem shield_fold_penalty (shields : List (String × ShieldVal)) :
    ∀ a : ℚ × ℚ × List String,
      (shields.foldl _shield_step a).2.1 = a.2.1 + 0.08 * shields.length := by
  induction shields with
  | nil => intro a; simp
  | cons p t ih =>
      intro a
      rw [List.foldl_cons, ih]
      cases hp : p.2 with
      | inl v =>
          simp only [_shield_step, hp, List.length_cons]
          push_cast
          ring
      | inr s =>
          simp only [_shield_step, hp, List.length_cons]
          push_cast
          ring

theorem ehp_item_stage_penalty (es : EnemyStats) :
    0.08 * es.item_shields.length ≤ (_ehp_item_stage es).2.1 := by
  have hs := shield_fold_penalty es.item_shields (es.current_hp, 0, [])
  unfold _ehp_item_stage _shield_fold
  dsimp only
  dsimp only at hs
  split_ifs with h1 h2 <;> rw [hs] <;> norm_num
  all_goals linarith [hs]

theorem cd_fold_nonneg (items : List String) :
    ∀ acc : ℚ × List String, 0 ≤ acc.1 → 0 ≤ (items.foldl _cd_step acc).1 := by
  induction items with
  | nil => intro a h; exact h
  | cons i t ih =>
      intro a h
      rw [List.foldl_cons]
      apply ih
      unfold _cd_step
      cases hl : List.lookup (_normalize_item_key i) ITEM_CD_FLAGS with
      | none => exact h
      | some m =>
          dsimp only
          linarith

/-- C4 (amended): on every evaluated call with a nonnegative-AD/AP
snapshot and nonnegative observed max HP, the base confidence
`min(0.97, kill_ratio)` lies in [0, 0.97]; the penalty actually
subtracted is `min(0.40, penalty)`, always in [0, 0.40]; six or more
item-shield penalty sources (0.08 each) force exactly 0.40 subtracted
(six arbitrary sources need not reach the cap); and the final confidence
lies in [0, 0.97]. -/
theorem penalty_cap_spec :
    ∀ (ms : MyState) (enemy : Enemy) (ov mhp : Option ℚ) (allies : Int) (gt : ℚ)
      (r : KillCalcResult),
      calculate_kill_chance ms enemy ov mhp allies gt = some r → r.paused = false →
      0 ≤ ms.total_ad → 0 ≤ ms.ap →
      (∀ v, enemy.hp_max_real = some v → 0 ≤ v) →
      (∀ b, _base_confidence ms enemy ov = some b → 0 ≤ b ∧ b ≤ 0.97) ∧
      0 ≤ _penalty_subtracted enemy ov ∧
      _penalty_subtracted enemy ov ≤ 0.40 ∧
      (6 ≤ _shield_source_count enemy ov → _penalty_subtracted enemy ov = 0.40) ∧
      0 ≤ r.confidence ∧ r.confidence ≤ 0.97 := by
  intro ms enemy ov mhp allies gt r hr hp had hap hreal
  obtain ⟨cd, hcd, hre⟩ := calc_evaluated ms enemy ov mhp allies gt r hr hp
  obtain ⟨hmax, hcur⟩ := build_stats_hp_nonneg enemy ov hreal
  have hcdnn : 0 ≤ cd.1 ∧ 0 ≤ cd.2.1 := by
    refine combo_fold_nonneg ms.total_ad ms.ap (_build_enemy_stats enemy ov).max_hp
      ms.spell_ranks had hap hmax (get_combo ms.champion).damage_components
      ((0 : ℚ), (0 : ℚ), ([] : List (String × ℚ × String)))
      (get_combo_ok ms.champion) (le_refl 0) (le_refl 0) cd ?_
    exact hcd
  have hact : 0 ≤ (_active_item_damage ms
      (_calc_effective_armor (_build_enemy_stats enemy ov).armor ms)).1 :=
    active_fold_nonneg _ ms.items ((0 : ℚ), ([] : List String)) (le_refl 0)
  have hdealt : 0 ≤ cd.1 *
        _dmg_reduction (_calc_effective_armor (_build_enemy_stats enemy ov).armor ms)
      + cd.2.1 *
        _mr_reduction (max 0 ((_build_enemy_stats enemy ov).mr - ms.magic_pen_flat))
      + (_active_item_damage ms
          (_calc_effective_armor (_build_enemy_stats enemy ov).armor ms)).1 := by
    have t1 := mul_nonneg hcdnn.1 (le_of_lt (dmg_reduction_pos
      (_calc_effective_armor (_build_enemy_stats enemy ov).armor ms)))
    have t2 := mul_nonneg hcdnn.2 (le_of_lt (mr_reduction_pos
      (max 0 ((_build_enemy_stats enemy ov).mr - ms.magic_pen_flat))))
    linarith
  have hmod : 0 ≤ (_summoner_stage enemy.summoners
      (_effective_hp_pre_summoners enemy ov)).2.1 :=
    (summoner_stage_props enemy.summoners
      (_effective_hp_pre_summoners enemy ov, 1, 0, [])).2.1 (by norm_num)
  have hd : 0 ≤ (cd.1 *
        _dmg_reduction (_calc_effective_armor (_build_enemy_stats enemy ov).armor ms)
      + cd.2.1 *
        _mr_reduction (max 0 ((_build_enemy_stats enemy ov).mr - ms.magic_pen_flat))
      + (_active_item_damage ms
          (_calc_effective_armor (_build_enemy_stats enemy ov).armor ms)).1) *
      (_summoner_stage enemy.summoners (_effective_hp_pre_summoners enemy ov)).2.1 :=
    mul_nonneg hdealt hmod
  have hpen1 : 0.08 * ((_build_enemy_stats enemy ov).item_shields.length : ℚ) ≤
      (_ehp_item_stage (_build_enemy_stats enemy ov)).2.1 :=
    ehp_item_stage_penalty _
  have hpen2 : 0 ≤ (_summoner_stage enemy.summoners
      (_effective_hp_pre_summoners enemy ov)).2.2.1 :=
    (summoner_stage_props enemy.summoners
      (_effective_hp_pre_summoners enemy ov, 1, 0, [])).2.2
  have hpen3 : 0 ≤ (_cd_stage enemy.items).1 :=
    cd_fold_nonneg enemy.items ((0 : ℚ), ([] : List String)) (le_refl 0)
  have hlen : (0:ℚ) ≤ 0.08 * ((_build_enemy_stats enemy ov).item_shields.length : ℚ) := by
    positivity
  have hpen : 0 ≤ _confidence_penalty enemy ov := by
    unfold _confidence_penalty
    linarith
  have hden : (0:ℚ) < max (_effective_hp_final enemy ov) 1 :=
    lt_of_lt_of_le zero_lt_one (le_max_right _ 1)
  refine ⟨?_, ?_, ?_, ?_, ?_⟩
  · intro b hb
    unfold _base_confidence _adjusted_dealt at hb
    dsimp only at hb
    rw [hcd] at hb
    simp only [Option.map_some', Option.some.injEq] at hb
    rw [← hb]
    constructor
    · exact le_min (by norm_num) (div_nonneg hd (le_of_lt hden))
    · exact min_le_left _ _
  · exact le_min (by norm_num) hpen
  · exact min_le_left _ _
  · intro h6
    unfold _shield_source_count at h6
    have h6q : (6:ℚ) ≤ ((_build_enemy_stats enemy ov).item_shields.length : ℚ) := by
      exact_mod_cast h6
    unfold _penalty_subtracted
    apply min_eq_left
    unfold _confidence_penalty
    nlinarith
  · subst hre
    have hconf : (_evaluated_result ms enemy ov allies cd).confidence =
        pyRound (max 0 (min 0.97 ((cd.1 *
            _dmg_reduction (_calc_effective_armor (_build_enemy_stats enemy ov).armor ms)
          + cd.2.1 *
            _mr_reduction (max 0 ((_build_enemy_stats enemy ov).mr - ms.magic_pen_flat))
          + (_active_item_damage ms
              (_calc_effective_armor (_build_enemy_stats enemy ov).armor ms)).1) *
          (_summoner_stage enemy.summoners (_effective_hp_pre_summoners enemy ov)).2.1 /
          max (_effective_hp_final enemy ov) 1) - _penalty_subtracted enemy ov)) 3 := rfl
    rw [hconf]
    have hsub0 : 0 ≤ _penalty_subtracted enemy ov := le_min (by norm_num) hpen
    have hbase97 : min (0.97:ℚ) ((cd.1 *
          _dmg_reduction (_calc_effective_armor (_build_enemy_stats enemy ov).armor ms)
        + cd.2.1 *
          _mr_reduction (max 0 ((_build_enemy_stats enemy ov).mr - ms.magic_pen_flat))
        + (_active_item_damage ms
            (_calc_effective_armor (_build_enemy_stats enemy ov).armor ms)).1) *
        (_summoner_stage enemy.summoners (_effective_hp_pre_summoners enemy ov)).2.1 /
        max (_effective_hp_final enemy ov) 1) ≤ 0.97 := min_le_left _ _
    have h0f : (0:ℚ) ≤ max 0 (min 0.97 ((cd.1 *
          _dmg_reduction (_calc_effective_armor (_build_enemy_stats enemy ov).armor ms)
        + cd.2.1 *
          _mr_reduction (max 0 ((_build_enemy_stats enemy ov).mr - ms.magic_pen_flat))
        + (_active_item_damage ms
            (_calc_effective_armor (_build_enemy_stats enemy ov).armor ms)).1) *
        (_summoner_stage enemy.summoners (_effective_hp_pre_summoners enemy ov)).2.1 /
        max (_effective_hp_final enemy ov) 1) - _penalty_subtracted enemy ov) :=
      le_max_left _ _
    have h1f : max 0 (min 0.97 ((cd.1 *
          _dmg_reduction (_calc_effective_armor (_build_enemy_stats enemy ov).armor ms)
        + cd.2.1 *
          _mr_reduction (max 0 ((_build_enemy_stats enemy ov).mr - ms.magic_pen_flat))
        + (_active_item_damage ms
            (_calc_effective_armor (_build_enemy_stats enemy ov).armor ms)).1) *
        (_summoner_stage enemy.summoners (_effective_hp_pre_summoners enemy ov)).2.1 /
        max (_effective_hp_final enemy ov) 1) - _penalty_subtracted enemy ov) ≤ 0.97 := by
      apply max_le (by norm_num)
      linarith
    have hb := pyRound3_bounds _ h0f (by linarith)
    refine ⟨hb.1, ?_⟩
    have h97 : (97:ℚ)/100 = 0.97 := by norm_num
    nth_rewrite 2 [← h97]
    exact hb.2

/-- C4 counterexample: six Eclipse cooldown flags are six penalty sources
of 0.05 each, so only 0.30 is subtracted, not 0.40; and with a negative
total AD the base confidence is negative, outside [0, 0.97]. -/
theorem penalty_cap_counterexample :
    (calculate_kill_chance msQ enC4 none none 0 100).map KillCalcResult.paused
      = some false ∧
    _penalty_source_count enC4 none = 6 ∧
    _penalty_subtracted enC4 none = 0.30 ∧
    (0.30 : ℚ) < 0.40 ∧
    (calculate_kill_chance msNeg enPlain none none 0 100).map KillCalcResult.paused
      = some false ∧
    _base_confidence msNeg enPlain none = some (-312125/928) ∧
    (-312125/928 : ℚ) < 0 := by
  have hne : _normalize_item_key "eclipse" = "eclipse" := rfl
  have hie : item_stats_get "eclipse" = {} := rfl
  have hlk : List.lookup "eclipse" ITEM_CD_FLAGS
      = some "Eclipse proc (6s CD) — unknown state" := rfl
  have hdd : ("eclipse" = "deaths_dance") = False := eq_false (by decide)
  have hc : get_champion_stats "anotherunknown" = _default_champ := rfl
  have hcombo : get_combo "unknownchamp" = _default_combo := rfl
  refine ⟨?_, ?_, ?_, by norm_num, ?_, ?_, by norm_num⟩
  · norm_num [calculate_kill_chance, msQ, enC4, _my_hp, MIN_MY_HP_TO_ENGAGE,
      _build_enemy_stats, _item_step, hne, hie, hc, _default_champ,
      calculate_stats_at_level, min_def, max_def, hdd, _calculate_combo_damage,
      hcombo, _default_combo, _combo_fold, _combo_step, get_base_damage_at_rank,
      _evaluated_result]
  · norm_num [_penalty_source_count, _build_enemy_stats, _item_step, hne, hie,
      hc, _default_champ, calculate_stats_at_level, min_def, max_def, hdd,
      enC4, List.countP_cons, List.countP_nil, hlk]
  · norm_num [_penalty_subtracted, _confidence_penalty, _build_enemy_stats,
      _item_step, hne, hie, hc, _default_champ, calculate_stats_at_level,
      min_def, max_def, hdd, enC4, _ehp_item_stage, _shield_fold, _shield_step,
      _summoner_stage, _summoner_step, _effective_hp_pre_summoners,
      _cd_stage, _cd_step, hlk]
  · norm_num [calculate_kill_chance, msNeg, enPlain, _my_hp, MIN_MY_HP_TO_ENGAGE,
      _build_enemy_stats, _item_step, hc, _default_champ,
      calculate_stats_at_level, min_def, max_def, _calculate_combo_damage,
      hcombo, _default_combo, _combo_fold, _combo_step, get_base_damage_at_rank,
      _evaluated_result]
  · norm_num [_base_confidence, _adjusted_dealt, msNeg, enPlain,
      _build_enemy_stats, _item_step, hc, _default_champ,
      calculate_stats_at_level, min_def, max_def, _calculate_combo_damage,
      hcombo, _default_combo, _combo_fold, _combo_step, get_base_damage_at_rank,
      _calc_effective_armor, _dmg_reduction, _mr_reduction, _active_item_damage,
      _active_step, _effective_hp_pre_summoners, _effective_hp_final,
      _ehp_item_stage, _shield_fold, _shield_step, _summoner_stage,
      _summoner_step]

/-- C4 witness: the amended theorem applied to a plain evaluated call. -/
theorem penalty_cap_spec_witness :
    0 ≤ _penalty_subtracted enPlain none ∧
    _penalty_subtracted enPlain none ≤ 0.40 ∧
    0 ≤ rC4w.confidence ∧ rC4w.confidence ≤ 0.97 := by
  have hc : get_champion_stats "anotherunknown" = _default_champ := rfl
  have hcombo : get_combo "unknownchamp" = _default_combo := rfl
  have hsome : (calculate_kill_chance msQ enPlain none none 0 100).isSome = true := by
    norm_num [calculate_kill_chance, msQ, enPlain, _my_hp, MIN_MY_HP_TO_ENGAGE,
      _build_enemy_stats, _item_step, hc, _default_champ, calculate_stats_at_level,
      min_def, max_def, _calculate_combo_damage, hcombo, _default_combo,
      _combo_fold, _combo_step, get_base_damage_at_rank]
  have hcalc : calculate_kill_chance msQ enPlain none none 0 100 = some rC4w :=
    eq_some_getD _ _ hsome
  have hpm : (calculate_kill_chance msQ enPlain none none 0 100).map KillCalcResult.paused
      = some false := by
    norm_num [calculate_kill_chance, msQ, enPlain, _my_hp, MIN_MY_HP_TO_ENGAGE,
      _build_enemy_stats, _item_step, hc, _default_champ, calculate_stats_at_level,
      min_def, max_def, _calculate_combo_damage, hcombo, _default_combo,
      _combo_fold, _combo_step, get_base_damage_at_rank, _evaluated_result]
  rw [hcalc] at hpm
  simp only [Option.map_some', Option.some.injEq] at hpm
  have h := penalty_cap_spec msQ enPlain none none 0 100 rC4w hcalc hpm
    (by norm_num [msQ]) (by norm_num [msQ]) (fun v hv => by simp [enPlain] at hv)
  exact ⟨h.2.1, h.2.2.1, h.2.2.2.2.1, h.2.2.2.2.2⟩
